import Mathlib

/-!
Verification of the GitHub/GitLab MCP adapter layer
(`github_mcp_server.py` and `gitlab_mcp_server.py`).

The two Python modules are shallowly embedded.  Each tool function becomes a
Lean function in a monad `M ρ α := List ρ → Except PyExc α × List ρ` that
threads the list of outbound HTTP requests issued so far (the *trace*) and
models uncaught Python exceptions with `Except`.  The HTTP collaborator
(`requests.get`/`requests.post` plus `.json()` parsing) is an environment
record with one field per endpoint, returning either a transport-level
exception message (`requests.RequestException`) or a status code together
with the parsed JSON body.  Python strings are Lean `String`s (Python `len`
and slicing count code points, as does `String.length` / `List.take` on
`String.data`).  Python `json.dumps` is modelled by a compact serializer
`dumps`; `str(HTTPError)` is summarized by the status class (the reason
phrase and URL, which come from the live response, are omitted).
-/

/-- Model of a Python/JSON value as produced by the adapters. -/
inductive PyVal where
  | pnull
  | pbool (b : Bool)
  | pint (n : Int)
  | pstr (s : String)
  | plist (xs : List PyVal)
  | pdict (kvs : List (String × PyVal))

/-- JSON string quoting (escaping of special characters is not modelled). -/
def jstr (s : String) : String := "\"" ++ s ++ "\""

mutual

/-- Model of `json.dumps` (compact; the `indent=2` pretty-printing is not
modelled, only the serialized structure). -/
def dumps : PyVal → String
  | PyVal.pnull => "null"
  | PyVal.pbool true => "true"
  | PyVal.pbool false => "false"
  | PyVal.pint n => toString n
  | PyVal.pstr s => jstr s
  | PyVal.plist xs => "[" ++ dumpsList xs ++ "]"
  | PyVal.pdict kvs => "\x7b" ++ dumpsDict kvs ++ "\x7d"

def dumpsList : List PyVal → String
  | [] => ""
  | [x] => dumps x
  | x :: y :: xs => dumps x ++ ", " ++ dumpsList (y :: xs)

def dumpsDict : List (String × PyVal) → String
  | [] => ""
  | [(k, v)] => jstr k ++ ": " ++ dumps v
  | (k, v) :: y :: xs => jstr k ++ ": " ++ dumps v ++ ", " ++ dumpsDict (y :: xs)

end

/-- Python slicing `s[:n]` on a string (by code points, like Python `len`). -/
def pySlice (s : String) (n : Nat) : String := String.mk (s.data.take n)

/-- Python `s.lower()`, viewed as the list of lowered code points
(`Char.toLower` lowers ASCII letters; full Unicode case folding is not
modelled). -/
def pyLower (s : String) : List Char := s.data.map Char.toLower

/-- The body/description truncation site shared (textually) by
`list_issues` (GitHub, line 141), `gitlab_list_issues` (line 180) and
`list_merge_requests` (line 511):
`x[:500] + "..." if x and len(x) > 500 else x`. -/
def truncate_body (s : String) : String :=
  if s ≠ "" ∧ 500 < s.length then pySlice s 500 ++ "..." else s

/-- The marker appended by the file-content truncation sites
(`get_file` line 301, `gitlab_get_file` line 337). -/
def content_marker (total : Nat) : String :=
  "\n\n... (file truncated, showing first 8000 characters of " ++
    toString total ++ " total)"

/-- The file-content truncation site of `get_file` / `gitlab_get_file`
(`max_size = 8000`). -/
def truncate_content (s : String) : String :=
  if 8000 < s.length then pySlice s 8000 ++ content_marker s.length else s

/-- Python exceptions that the embedded code can raise. -/
inductive PyExc where
  | requestException (msg : String)
  | unicodeError (msg : String)

/-- Result of one call of the HTTP primitive: either a transport-level
`requests.RequestException` (message) or a status code with a parsed body. -/
abbrev RResult (α : Type) := Except String (Nat × α)

/-- The tool monad: threads the trace of issued requests (type `ρ`) and an
uncaught-exception channel. -/
def M (ρ α : Type) : Type := List ρ → Except PyExc α × List ρ

def mret {ρ α : Type} (a : α) : M ρ α := fun t => (Except.ok a, t)

def mthrow {ρ α : Type} (e : PyExc) : M ρ α := fun t => (Except.error e, t)

def mbind {ρ α β : Type} (x : M ρ α) (f : α → M ρ β) : M ρ β := fun t =>
  match x t with
  | (Except.ok a, t2) => f a t2
  | (Except.error e, t2) => (Except.error e, t2)

/-- `requests.get`/`requests.post` followed by `.json()`: records the request
in the trace, then either raises `RequestException` or yields (status, body). -/
def hreq {ρ α : Type} (req : ρ) (r : RResult α) : M ρ (Nat × α) := fun t =>
  (match r with
   | Except.ok sb => Except.ok sb
   | Except.error msg => Except.error (PyExc.requestException msg),
   t ++ [req])

/-- Model of `str(e)` for the `HTTPError` raised by
`response.raise_for_status()` (status class only; reason phrase and URL are
not modelled). -/
def statusMessage (status : Nat) : String :=
  toString status ++ (if status < 500 then " Client Error" else " Server Error")

/-- `response.raise_for_status()`: raises `HTTPError` (a subclass of
`RequestException`) exactly for 4xx/5xx status codes. -/
def raise_for_status {ρ : Type} (status : Nat) : M ρ Unit :=
  if 400 ≤ status ∧ status < 600 then
    mthrow (PyExc.requestException (statusMessage status))
  else mret ()

/-- `try: ... except requests.RequestException as e: ...`. -/
def catchRequestExc {ρ α : Type} (x : M ρ α) (h : String → M ρ α) :
    M ρ α := fun t =>
  match x t with
  | (Except.error (PyExc.requestException m), t2) => h m t2
  | r => r

/-- An upstream base64 `content` field, abstracted by its decoding behaviour:
`text s` decodes (via `base64.b64decode(...).decode('utf-8')`) to `s`;
`binary m` raises `UnicodeDecodeError`. -/
inductive PyBytes where
  | text (s : String)
  | binary (msg : String)

/-- `base64.b64decode(file_data["content"]).decode('utf-8')`. -/
def decode_utf8 : PyBytes → Except PyExc String
  | PyBytes.text s => Except.ok s
  | PyBytes.binary m => Except.error (PyExc.unicodeError m)

/-- Python string comparison `a <= b`: lexicographic on code points. -/
def lexLe : List Char → List Char → Bool
  | [], _ => true
  | _ :: _, [] => false
  | a :: as, b :: bs => if a < b then true else if a = b then lexLe as bs else false

/-- Python tuple comparison on a sort key `(bool, str)` as used by
`items.sort(key=lambda x: (x["type"] != ..., x["name"].lower()))`:
lexicographic, with `False < True`. -/
def keyLe (p q : Bool × List Char) : Bool :=
  if p.1 = q.1 then lexLe p.2 q.2 else decide (p.1 < q.1)

/-- Stable insertion: places `x` before the first element it is `le`-below-or-
equal, so later-inserted (originally earlier) elements keep their position
among equals. -/
def stableInsert {α : Type} (le : α → α → Bool) (x : α) : List α → List α
  | [] => [x]
  | y :: ys => if le x y then x :: y :: ys else y :: stableInsert le x ys

/-- Model of Python's stable `list.sort(key=...)`: a stable sort is unique
given a total preorder, so stable insertion sort agrees with Timsort. -/
def stableSort {α : Type} (le : α → α → Bool) : List α → List α
  | [] => []
  | x :: xs => stableInsert le x (stableSort le xs)

/-- Python truthiness of an optional list (`if labels:`): `None` and `[]` are
falsy, a non-empty list is truthy. -/
def optListTruthy {β : Type} : Option (List β) → Bool
  | some (_ :: _) => true
  | _ => false

/-- Python `path or "/"` (empty string is falsy). -/
def orSlash (p : String) : String := if p = "" then "/" else p

namespace Github

/-- Upstream repository object (fields the projections access; fields read
with `.get` are `Option`al, fields read with `[...]` are required — upstream
bodies are assumed well formed for the keys the code indexes directly). -/
structure Repo where
  name : String
  full_name : String
  description : Option String
  priv : Bool
  stargazers_count : Int
  forks_count : Int
  language : Option String
  updated_at : String
  html_url : String

/-- Upstream repository object for `get_repository_info`.  `license` is
`none` when absent/null (Python-falsy), `some nm` when an object whose
optional `name` is `nm`. -/
structure RepoDetail where
  name : String
  full_name : String
  description : Option String
  priv : Bool
  stargazers_count : Int
  forks_count : Int
  language : Option String
  created_at : String
  updated_at : String
  default_branch : String
  topics : Option (List String)
  license : Option (Option String)
  clone_url : String
  ssh_url : String

/-- Repository metadata as read by `get_file`'s fallback
(only `.get("default_branch", "master")` is consulted). -/
structure RepoMeta where
  default_branch : Option String

structure Label where
  name : String

structure User where
  login : String

/-- Upstream issue object.  `pull_request` records whether the payload has a
`"pull_request"` key. -/
structure Issue where
  number : Int
  title : String
  state : String
  user : User
  created_at : String
  updated_at : String
  labels : Option (List Label)
  assignees : Option (List User)
  comments : Int
  body : Option String
  pull_request : Bool
  html_url : String

/-- Upstream response to issue creation. -/
structure CreatedIssue where
  number : Int
  title : String
  html_url : String
  state : String
  created_at : String

/-- Upstream contents-endpoint body for `get_file` (`typ` is the `"type"`
key, read with `.get`). -/
structure FileData where
  typ : Option String
  content : PyBytes
  size : Int
  encoding : Option String
  download_url : Option String
  sha : Option String

/-- Single-file body of the contents endpoint (dict case of
`list_repository_contents`). -/
structure ContentsFileInfo where
  name : String
  size : Int
  typ : String

/-- One entry of a directory listing (`typ` is the `"type"` key:
`"file"` or `"dir"`; `size` read with `.get("size", 0)`). -/
structure Entry where
  name : String
  typ : String
  size : Option Int
  path : String

/-- Body of the contents endpoint for `list_repository_contents`:
either a single file object (`isinstance(contents, dict)`) or a list. -/
inductive ContentsResp where
  | single (f : ContentsFileInfo)
  | listing (entries : List Entry)

/-- Upstream body of the repository search endpoint. -/
structure SearchData where
  total_count : Int
  items : List Repo

/-- One outbound GitHub API request (endpoint plus the argument-dependent
parameters the code sends). -/
inductive Req where
  | userRepos (owner : String) (per_page : Int)
  | repoInfo (owner repo : String)
  | issues (owner repo state : String) (per_page : Int)
  | createIssue (owner repo : String) (data : List (String × PyVal))
  | issue (owner repo : String) (number : Int)
  | contents (owner repo path ref : String)
  | searchRepos (q sort order : String) (per_page : Int)

/-- The HTTP collaborator for the GitHub adapter: one field per endpoint,
giving the transport outcome and parsed body for each possible request. -/
structure Env where
  userRepos : String → Int → RResult (List Repo)
  repoInfo : String → String → RResult RepoDetail
  repoMeta : String → String → RResult RepoMeta
  issues : String → String → String → Int → RResult (List Issue)
  createIssue : String → String → List (String × PyVal) → RResult CreatedIssue
  issue : String → String → Int → RResult Issue
  fileContents : String → String → String → String → RResult FileData
  dirContents : String → String → String → String → RResult ContentsResp
  searchRepos : String → String → String → Int → RResult SearchData

/-- Projection of one repository in `list_repositories` (lines 46-55). -/
def projRepo (r : Repo) : PyVal :=
  PyVal.pdict [
    ("name", PyVal.pstr r.name),
    ("full_name", PyVal.pstr r.full_name),
    ("description", PyVal.pstr (r.description.getD "")),
    ("private", PyVal.pbool r.priv),
    ("stars", PyVal.pint r.stargazers_count),
    ("forks", PyVal.pint r.forks_count),
    ("language", PyVal.pstr (r.language.getD "")),
    ("updated_at", PyVal.pstr r.updated_at)]

/-- `list_repositories` (lines 26-60). -/
def list_repositories (env : Env) (owner : String) (per_page : Int := 30) :
    M Req String :=
  catchRequestExc
    (mbind (hreq (Req.userRepos owner (min per_page 100))
                 (env.userRepos owner (min per_page 100))) (fun sb =>
      mbind (raise_for_status sb.1) (fun _ =>
        mret (dumps (PyVal.plist (sb.2.map projRepo))))))
    (fun m => mret ("Error fetching repositories: " ++ m))

/-- Projection in `get_repository_info` (lines 79-94). -/
def projRepoDetail (r : RepoDetail) : PyVal :=
  PyVal.pdict [
    ("name", PyVal.pstr r.name),
    ("full_name", PyVal.pstr r.full_name),
    ("description", PyVal.pstr (r.description.getD "")),
    ("private", PyVal.pbool r.priv),
    ("stars", PyVal.pint r.stargazers_count),
    ("forks", PyVal.pint r.forks_count),
    ("language", PyVal.pstr (r.language.getD "")),
    ("created_at", PyVal.pstr r.created_at),
    ("updated_at", PyVal.pstr r.updated_at),
    ("default_branch", PyVal.pstr r.default_branch),
    ("topics", PyVal.plist ((r.topics.getD []).map PyVal.pstr)),
    ("license", PyVal.pstr (match r.license with
      | none => ""
      | some nm => nm.getD "")),
    ("clone_url", PyVal.pstr r.clone_url),
    ("ssh_url", PyVal.pstr r.ssh_url)]

/-- `get_repository_info` (lines 62-99). -/
def get_repository_info (env : Env) (owner repo : String) : M Req String :=
  catchRequestExc
    (mbind (hreq (Req.repoInfo owner repo) (env.repoInfo owner repo)) (fun sb =>
      mbind (raise_for_status sb.1) (fun _ =>
        mret (dumps (projRepoDetail sb.2)))))
    (fun m => mret ("Error fetching repository info: " ++ m))

/-- Projection of one issue in `list_issues` (lines 131-142), including the
500-character body truncation. -/
def projIssueSummary (i : Issue) : PyVal :=
  PyVal.pdict [
    ("number", PyVal.pint i.number),
    ("title", PyVal.pstr i.title),
    ("state", PyVal.pstr i.state),
    ("user", PyVal.pstr i.user.login),
    ("created_at", PyVal.pstr i.created_at),
    ("updated_at", PyVal.pstr i.updated_at),
    ("labels", PyVal.plist ((i.labels.getD []).map (fun l => PyVal.pstr l.name))),
    ("assignees", PyVal.plist ((i.assignees.getD []).map (fun a => PyVal.pstr a.login))),
    ("comments", PyVal.pint i.comments),
    ("body", PyVal.pstr (truncate_body (i.body.getD "")))]

/-- The projection loop of `list_issues` (lines 126-142): skips every item
whose payload has a `pull_request` key. -/
def list_issues_items : List Issue → List PyVal
  | [] => []
  | i :: rest =>
    if i.pull_request then list_issues_items rest
    else projIssueSummary i :: list_issues_items rest

/-- `list_issues` (lines 101-147). -/
def list_issues (env : Env) (owner repo : String) (state : String := "open")
    (per_page : Int := 30) : M Req String :=
  catchRequestExc
    (mbind (hreq (Req.issues owner repo state (min per_page 100))
                 (env.issues owner repo state (min per_page 100))) (fun sb =>
      mbind (raise_for_status sb.1) (fun _ =>
        mret (dumps (PyVal.plist (list_issues_items sb.2))))))
    (fun m => mret ("Error fetching issues: " ++ m))

/-- The JSON body POSTed by `create_issue` (lines 164-172): `labels` /
`assignees` keys are added only when the argument is truthy (non-`None`,
non-empty). -/
def create_issue_data (title body : String) (labels : Option (List String))
    (assignees : Option (List String)) : List (String × PyVal) :=
  let d0 := [("title", PyVal.pstr title), ("body", PyVal.pstr body)]
  let d1 := if optListTruthy labels then
      d0 ++ [("labels", PyVal.plist ((labels.getD []).map PyVal.pstr))]
    else d0
  if optListTruthy assignees then
    d1 ++ [("assignees", PyVal.plist ((assignees.getD []).map PyVal.pstr))]
  else d1

/-- Projection in `create_issue` (lines 180-186). -/
def projCreatedIssue (i : CreatedIssue) : PyVal :=
  PyVal.pdict [
    ("number", PyVal.pint i.number),
    ("title", PyVal.pstr i.title),
    ("url", PyVal.pstr i.html_url),
    ("state", PyVal.pstr i.state),
    ("created_at", PyVal.pstr i.created_at)]

/-- `create_issue` (lines 149-191). -/
def create_issue (env : Env) (owner repo title : String) (body : String := "")
    (labels : Option (List String) := none)
    (assignees : Option (List String) := none) : M Req String :=
  catchRequestExc
    (mbind (hreq (Req.createIssue owner repo
                    (create_issue_data title body labels assignees))
                 (env.createIssue owner repo
                    (create_issue_data title body labels assignees))) (fun sb =>
      mbind (raise_for_status sb.1) (fun _ =>
        mret (dumps (projCreatedIssue sb.2)))))
    (fun m => mret ("Error creating issue: " ++ m))

/-- Projection in `get_issue` (lines 211-223): full, untruncated body. -/
def projIssueDetail (i : Issue) : PyVal :=
  PyVal.pdict [
    ("number", PyVal.pint i.number),
    ("title", PyVal.pstr i.title),
    ("state", PyVal.pstr i.state),
    ("user", PyVal.pstr i.user.login),
    ("created_at", PyVal.pstr i.created_at),
    ("updated_at", PyVal.pstr i.updated_at),
    ("labels", PyVal.plist ((i.labels.getD []).map (fun l => PyVal.pstr l.name))),
    ("assignees", PyVal.plist ((i.assignees.getD []).map (fun a => PyVal.pstr a.login))),
    ("comments", PyVal.pint i.comments),
    ("body", PyVal.pstr (i.body.getD "")),
    ("url", PyVal.pstr i.html_url)]

/-- `get_issue` (lines 193-228). -/
def get_issue (env : Env) (owner repo : String) (issue_number : Int) :
    M Req String :=
  catchRequestExc
    (mbind (hreq (Req.issue owner repo issue_number)
                 (env.issue owner repo issue_number)) (fun sb =>
      mbind (raise_for_status sb.1) (fun _ =>
        mret (dumps (projIssueDetail sb.2)))))
    (fun m => mret ("Error fetching issue: " ++ m))

/-- Not-found envelope of `get_file` (lines 260-266). -/
def file_not_found (owner repo file_path branch : String) : PyVal :=
  PyVal.pdict [
    ("repository", PyVal.pstr (owner ++ "/" ++ repo)),
    ("file_path", PyVal.pstr file_path),
    ("branch", PyVal.pstr branch),
    ("error", PyVal.pstr ("File '" ++ file_path ++ "' not found in repository "
      ++ owner ++ "/" ++ repo ++ " on branch " ++ branch)),
    ("suggestion", PyVal.pstr
      "Check the file path and branch name. Use list_repository_contents to see available files.")]

/-- Type-mismatch envelope of `get_file` (lines 272-279). -/
def not_a_file (owner repo file_path branch t : String) : PyVal :=
  PyVal.pdict [
    ("repository", PyVal.pstr (owner ++ "/" ++ repo)),
    ("file_path", PyVal.pstr file_path),
    ("branch", PyVal.pstr branch),
    ("error", PyVal.pstr ("'" ++ file_path ++ "' is not a file (it's a "
      ++ t ++ ")")),
    ("suggestion", PyVal.pstr "Use list_repository_contents to see directory contents.")]

/-- Binary-file envelope of `get_file` (lines 287-296). -/
def binary_file (owner repo file_path branch : String) (size : Int)
    (encoding : String) : PyVal :=
  PyVal.pdict [
    ("repository", PyVal.pstr (owner ++ "/" ++ repo)),
    ("file_path", PyVal.pstr file_path),
    ("branch", PyVal.pstr branch),
    ("error", PyVal.pstr "File appears to be binary and cannot be displayed as text"),
    ("file_info", PyVal.pdict [
      ("size", PyVal.pint size),
      ("encoding", PyVal.pstr encoding)])]

/-- Success envelope of `get_file` (lines 303-312). -/
def file_success (owner repo file_path branch : String) (fd : FileData)
    (content : String) : PyVal :=
  PyVal.pdict [
    ("repository", PyVal.pstr (owner ++ "/" ++ repo)),
    ("file_path", PyVal.pstr file_path),
    ("branch", PyVal.pstr branch),
    ("size", PyVal.pint fd.size),
    ("encoding", PyVal.pstr (fd.encoding.getD "base64")),
    ("content", PyVal.pstr content),
    ("download_url", match fd.download_url with
      | none => PyVal.pnull
      | some u => PyVal.pstr u),
    ("last_modified", match fd.sha with
      | none => PyVal.pnull
      | some s => PyVal.pstr s)]

/-- Outer `except requests.RequestException` envelope of `get_file`
(lines 316-322). -/
def file_fetch_error (owner repo file_path branch msg : String) : PyVal :=
  PyVal.pdict [
    ("repository", PyVal.pstr (owner ++ "/" ++ repo)),
    ("file_path", PyVal.pstr file_path),
    ("branch", PyVal.pstr branch),
    ("error", PyVal.pstr ("Error fetching file: " ++ msg))]

/-- `get_file` (lines 230-322), with its guarded branch-fallback recursion:
on a 404 for branch `"main"`, the repository metadata is fetched (inside its
own `try/except ... pass`) and, when it declares a default branch other than
`"main"`, the whole tool re-runs once on that branch. -/
def get_file (env : Env) (owner repo file_path : String)
    (branch : String := "main") : M Req String :=
  catchRequestExc
    (mbind (hreq (Req.contents owner repo file_path branch)
                 (env.fileContents owner repo file_path branch)) (fun sb =>
      if sb.1 == 404 then
        mbind
          (if _hb : branch = "main" then
            catchRequestExc
              (mbind (hreq (Req.repoInfo owner repo) (env.repoMeta owner repo))
                (fun sb2 =>
                  if sb2.1 == 200 then
                    if _hd : sb2.2.default_branch.getD "master" ≠ "main" then
                      mbind (get_file env owner repo file_path
                               (sb2.2.default_branch.getD "master"))
                        (fun s => mret (some s))
                    else mret (none : Option String)
                  else mret (none : Option String)))
              (fun _ => mret (none : Option String))
          else mret (none : Option String))
          (fun fallback =>
            match fallback with
            | some s => mret s
            | none => mret (dumps (file_not_found owner repo file_path branch)))
      else
        mbind (raise_for_status sb.1) (fun _ =>
          if sb.2.typ ≠ some "file" then
            mret (dumps (not_a_file owner repo file_path branch
                          (sb.2.typ.getD "unknown")))
          else
            match decode_utf8 sb.2.content with
            | Except.error _ =>
              mret (dumps (binary_file owner repo file_path branch
                            sb.2.size (sb.2.encoding.getD "unknown")))
            | Except.ok content =>
              mret (dumps (file_success owner repo file_path branch sb.2
                            (truncate_content content))))))
    (fun m => mret (dumps (file_fetch_error owner repo file_path branch m)))
termination_by (if branch = "main" then 1 else 0)
decreasing_by simp_all

/-- A projected directory-listing item (lines 369-374). -/
structure Item where
  name : String
  typ : String
  size : Option Int
  path : String
deriving DecidableEq

/-- The sort key of `list_repository_contents` (line 377):
`(x["type"] != "dir", x["name"].lower())`. -/
def itemKey (i : Item) : Bool × List Char := (decide (i.typ ≠ "dir"), pyLower i.name)

/-- The comparison induced by the GitHub directory-listing sort key. -/
def itemLe (a b : Item) : Bool := keyLe (itemKey a) (itemKey b)

/-- Projection of one directory entry into an item (lines 369-374). -/
def toItem (e : Entry) : Item :=
  { name := e.name
    typ := e.typ
    size := if e.typ == "file" then some (e.size.getD 0) else none
    path := e.path }

def projItem (i : Item) : PyVal :=
  PyVal.pdict [
    ("name", PyVal.pstr i.name),
    ("type", PyVal.pstr i.typ),
    ("size", match i.size with
      | some n => PyVal.pint n
      | none => PyVal.pnull),
    ("path", PyVal.pstr i.path)]

/-- `list_repository_contents` (lines 324-395). -/
def list_repository_contents (env : Env) (owner repo : String)
    (path : String := "") (branch : String := "main") : M Req String :=
  catchRequestExc
    (mbind (hreq (Req.contents owner repo path branch)
                 (env.dirContents owner repo path branch)) (fun sb =>
      if sb.1 == 404 then
        mret (dumps (PyVal.pdict [
          ("repository", PyVal.pstr (owner ++ "/" ++ repo)),
          ("path", PyVal.pstr (orSlash path)),
          ("branch", PyVal.pstr branch),
          ("error", PyVal.pstr ("Path '" ++ path ++ "' not found in repository "
            ++ owner ++ "/" ++ repo ++ " on branch " ++ branch))]))
      else
        mbind (raise_for_status sb.1) (fun _ =>
          match sb.2 with
          | ContentsResp.single f =>
            mret (dumps (PyVal.pdict [
              ("repository", PyVal.pstr (owner ++ "/" ++ repo)),
              ("path", PyVal.pstr (orSlash path)),
              ("branch", PyVal.pstr branch),
              ("type", PyVal.pstr "file"),
              ("file_info", PyVal.pdict [
                ("name", PyVal.pstr f.name),
                ("size", PyVal.pint f.size),
                ("type", PyVal.pstr f.typ)])]))
          | ContentsResp.listing entries =>
            let items := stableSort itemLe (entries.map toItem)
            mret (dumps (PyVal.pdict [
              ("repository", PyVal.pstr (owner ++ "/" ++ repo)),
              ("path", PyVal.pstr (orSlash path)),
              ("branch", PyVal.pstr branch),
              ("total_items", PyVal.pint items.length),
              ("contents", PyVal.plist (items.map projItem))])))))
    (fun m => mret (dumps (PyVal.pdict [
      ("repository", PyVal.pstr (owner ++ "/" ++ repo)),
      ("path", PyVal.pstr (orSlash path)),
      ("branch", PyVal.pstr branch),
      ("error", PyVal.pstr ("Error fetching contents: " ++ m))])))

/-- Projection of one search hit (lines 424-433). -/
def projSearchRepo (r : Repo) : PyVal :=
  PyVal.pdict [
    ("name", PyVal.pstr r.name),
    ("full_name", PyVal.pstr r.full_name),
    ("description", PyVal.pstr (r.description.getD "")),
    ("stars", PyVal.pint r.stargazers_count),
    ("forks", PyVal.pint r.forks_count),
    ("language", PyVal.pstr (r.language.getD "")),
    ("updated_at", PyVal.pstr r.updated_at),
    ("url", PyVal.pstr r.html_url)]

/-- `search_repositories` (lines 397-441). -/
def search_repositories (env : Env) (query : String) (sort : String := "stars")
    (order : String := "desc") (per_page : Int := 30) : M Req String :=
  catchRequestExc
    (mbind (hreq (Req.searchRepos query sort order (min per_page 100))
                 (env.searchRepos query sort order (min per_page 100))) (fun sb =>
      mbind (raise_for_status sb.1) (fun _ =>
        mret (dumps (PyVal.pdict [
          ("total_count", PyVal.pint sb.2.total_count),
          ("repositories", PyVal.plist (sb.2.items.map projSearchRepo))])))))
    (fun m => mret ("Error searching repositories: " ++ m))

end Github

/-- Python truthiness of an optional string (`if owner:`): `None` and `""`
are falsy. -/
def optStrTruthy : Option String → Bool
  | some s => s ≠ ""
  | none => false

namespace Gitlab

/-- Upstream project object (list/search item). -/
structure Project where
  id : Int
  name : String
  path_with_namespace : String
  description : Option String
  visibility : String
  star_count : Int
  forks_count : Int
  default_branch : Option String
  last_activity_at : String
  web_url : String

/-- Upstream project object for `get_project_info`. -/
structure ProjectDetail where
  id : Int
  name : String
  path_with_namespace : String
  description : Option String
  visibility : String
  star_count : Int
  forks_count : Int
  default_branch : Option String
  created_at : String
  last_activity_at : String
  topics : Option (List String)
  http_url_to_repo : String
  ssh_url_to_repo : String
  web_url : String
  issues_enabled : Bool
  merge_requests_enabled : Bool

/-- Project metadata as read by `gitlab_get_file`'s fallback
(only `.get("default_branch", "master")` is consulted). -/
structure ProjectMeta where
  default_branch : Option String

/-- A user-search hit (only `id` is consulted). -/
structure User where
  id : Int

/-- A group-search hit (only `id` is consulted). -/
structure Group where
  id : Int

structure Author where
  username : String

structure Assignee where
  username : String

/-- Upstream issue object (GitLab labels are already strings). -/
structure Issue where
  iid : Int
  id : Int
  title : String
  state : String
  author : Author
  created_at : String
  updated_at : String
  labels : Option (List String)
  assignees : Option (List Assignee)
  user_notes_count : Int
  web_url : String
  description : Option String

/-- Upstream response to issue creation. -/
structure CreatedIssue where
  iid : Int
  id : Int
  title : String
  web_url : String
  state : String
  created_at : String

/-- Upstream repository-files body for `gitlab_get_file`. -/
structure FileData where
  content : PyBytes
  size : Int
  encoding : Option String
  last_commit_id : Option String

/-- One entry of the repository tree (`typ` is the `"type"` key:
`"blob"` or `"tree"`). -/
structure TreeEntry where
  name : String
  typ : String
  path : String
  mode : String

/-- Upstream merge-request object. -/
structure MergeRequest where
  iid : Int
  id : Int
  title : String
  state : String
  author : Author
  source_branch : String
  target_branch : String
  created_at : String
  updated_at : String
  labels : Option (List String)
  assignees : Option (List Assignee)
  user_notes_count : Int
  web_url : String
  description : Option String

/-- One outbound GitLab API request. -/
inductive Req where
  | usersSearch (username : String)
  | groupsSearch (search : String)
  | userProjects (uid : Int) (per_page : Int)
  | groupProjects (gid : Int) (per_page : Int)
  | allProjects (per_page : Int)
  | projectInfo (project_id : String)
  | issues (project_id state : String) (per_page : Int)
  | createIssue (project_id : String) (data : List (String × PyVal))
  | issue (project_id : String) (iid : Int)
  | file (project_id file_path ref : String)
  | tree (project_id path ref : String)
  | searchProjects (query order_by sort : String) (per_page : Int)
  | mergeRequests (project_id state : String) (per_page : Int)

/-- The HTTP collaborator for the GitLab adapter. -/
structure Env where
  usersSearch : String → RResult (List User)
  groupsSearch : String → RResult (List Group)
  userProjects : Int → Int → RResult (List Project)
  groupProjects : Int → Int → RResult (List Project)
  allProjects : Int → RResult (List Project)
  projectInfo : String → RResult ProjectDetail
  projectMeta : String → RResult ProjectMeta
  issues : String → String → Int → RResult (List Issue)
  createIssue : String → List (String × PyVal) → RResult CreatedIssue
  issue : String → Int → RResult Issue
  file : String → String → String → RResult FileData
  tree : String → String → String → RResult (List TreeEntry)
  searchProjects : String → String → String → Int → RResult (List Project)
  mergeRequests : String → String → Int → RResult (List MergeRequest)

/-- Which project-listing URL `list_projects` resolved to. -/
inductive Scope where
  | all
  | user (uid : Int)
  | group (gid : Int)

/-- Projection of one project in `list_projects` (lines 78-89). -/
def projProject (p : Project) : PyVal :=
  PyVal.pdict [
    ("id", PyVal.pint p.id),
    ("name", PyVal.pstr p.name),
    ("path_with_namespace", PyVal.pstr p.path_with_namespace),
    ("description", PyVal.pstr (p.description.getD "")),
    ("visibility", PyVal.pstr p.visibility),
    ("stars", PyVal.pint p.star_count),
    ("forks", PyVal.pint p.forks_count),
    ("default_branch", PyVal.pstr (p.default_branch.getD "main")),
    ("last_activity_at", PyVal.pstr p.last_activity_at),
    ("web_url", PyVal.pstr p.web_url)]

/-- `list_projects` (lines 26-94), including the owner resolver (§4.5):
user search first, then group search, first match wins. -/
def list_projects (env : Env) (owner : Option String := none)
    (per_page : Int := 30) : M Req String :=
  mbind
    (if optStrTruthy owner then
      catchRequestExc
        (mbind (hreq (Req.usersSearch (owner.getD ""))
                     (env.usersSearch (owner.getD ""))) (fun sb =>
          mbind (raise_for_status sb.1) (fun _ =>
            match sb.2 with
            | [] =>
              mbind (hreq (Req.groupsSearch (owner.getD ""))
                          (env.groupsSearch (owner.getD ""))) (fun sb2 =>
                mbind (raise_for_status sb2.1) (fun _ =>
                  match sb2.2 with
                  | [] => mret (Sum.inl ("User or group '" ++ owner.getD ""
                            ++ "' not found"))
                  | g :: _ => mret (Sum.inr (Scope.group g.id))))
            | u :: _ => mret (Sum.inr (Scope.user u.id)))))
        (fun m => mret (Sum.inl ("Error finding user/group: " ++ m)))
    else mret (Sum.inr Scope.all))
    (fun r =>
      match r with
      | Sum.inl err => mret err
      | Sum.inr scope =>
        let rr : Req × RResult (List Project) :=
          match scope with
          | Scope.all =>
            (Req.allProjects (min per_page 100), env.allProjects (min per_page 100))
          | Scope.user uid =>
            (Req.userProjects uid (min per_page 100),
             env.userProjects uid (min per_page 100))
          | Scope.group gid =>
            (Req.groupProjects gid (min per_page 100),
             env.groupProjects gid (min per_page 100))
        catchRequestExc
          (mbind (hreq rr.1 rr.2) (fun sb =>
            mbind (raise_for_status sb.1) (fun _ =>
              mret (dumps (PyVal.plist (sb.2.map projProject))))))
          (fun m => mret ("Error fetching projects: " ++ m)))

/-- Projection in `get_project_info` (lines 115-132). -/
def projProjectDetail (p : ProjectDetail) : PyVal :=
  PyVal.pdict [
    ("id", PyVal.pint p.id),
    ("name", PyVal.pstr p.name),
    ("path_with_namespace", PyVal.pstr p.path_with_namespace),
    ("description", PyVal.pstr (p.description.getD "")),
    ("visibility", PyVal.pstr p.visibility),
    ("stars", PyVal.pint p.star_count),
    ("forks", PyVal.pint p.forks_count),
    ("default_branch", PyVal.pstr (p.default_branch.getD "main")),
    ("created_at", PyVal.pstr p.created_at),
    ("last_activity_at", PyVal.pstr p.last_activity_at),
    ("topics", PyVal.plist ((p.topics.getD []).map PyVal.pstr)),
    ("http_url_to_repo", PyVal.pstr p.http_url_to_repo),
    ("ssh_url_to_repo", PyVal.pstr p.ssh_url_to_repo),
    ("web_url", PyVal.pstr p.web_url),
    ("issues_enabled", PyVal.pbool p.issues_enabled),
    ("merge_requests_enabled", PyVal.pbool p.merge_requests_enabled)]

/-- `get_project_info` (lines 96-137). -/
def get_project_info (env : Env) (project_id : String) : M Req String :=
  catchRequestExc
    (mbind (hreq (Req.projectInfo project_id) (env.projectInfo project_id)) (fun sb =>
      mbind (raise_for_status sb.1) (fun _ =>
        mret (dumps (projProjectDetail sb.2)))))
    (fun m => mret ("Error fetching project info: " ++ m))

/-- Projection of one issue in `gitlab_list_issues` (lines 168-181),
including the 500-character description truncation. -/
def projIssueSummary (i : Issue) : PyVal :=
  PyVal.pdict [
    ("iid", PyVal.pint i.iid),
    ("id", PyVal.pint i.id),
    ("title", PyVal.pstr i.title),
    ("state", PyVal.pstr i.state),
    ("author", PyVal.pstr i.author.username),
    ("created_at", PyVal.pstr i.created_at),
    ("updated_at", PyVal.pstr i.updated_at),
    ("labels", PyVal.plist ((i.labels.getD []).map PyVal.pstr)),
    ("assignees", PyVal.plist ((i.assignees.getD []).map (fun a => PyVal.pstr a.username))),
    ("user_notes_count", PyVal.pint i.user_notes_count),
    ("web_url", PyVal.pstr i.web_url),
    ("description", PyVal.pstr (truncate_body (i.description.getD "")))]

/-- The projection loop of `gitlab_list_issues` (lines 167-181):
no filtering, every returned item is projected. -/
def gitlab_list_issues_items : List Issue → List PyVal
  | [] => []
  | i :: rest => projIssueSummary i :: gitlab_list_issues_items rest

/-- `gitlab_list_issues` (lines 139-186). -/
def gitlab_list_issues (env : Env) (project_id : String)
    (state : String := "opened") (per_page : Int := 30) : M Req String :=
  catchRequestExc
    (mbind (hreq (Req.issues project_id state (min per_page 100))
                 (env.issues project_id state (min per_page 100))) (fun sb =>
      mbind (raise_for_status sb.1) (fun _ =>
        mret (dumps (PyVal.plist (gitlab_list_issues_items sb.2))))))
    (fun m => mret ("Error fetching issues: " ++ m))

/-- The JSON body POSTed by `gitlab_create_issue` (lines 204-212):
truthy `labels` are sent comma-joined as a single string, truthy
`assignee_ids` as a list of integers. -/
def gitlab_create_issue_data (title description : String)
    (labels : Option (List String)) (assignee_ids : Option (List Int)) :
    List (String × PyVal) :=
  let d0 := [("title", PyVal.pstr title), ("description", PyVal.pstr description)]
  let d1 := if optListTruthy labels then
      d0 ++ [("labels", PyVal.pstr (String.intercalate "," (labels.getD [])))]
    else d0
  if optListTruthy assignee_ids then
    d1 ++ [("assignee_ids", PyVal.plist ((assignee_ids.getD []).map PyVal.pint))]
  else d1

/-- Projection in `gitlab_create_issue` (lines 220-227). -/
def projCreatedIssue (i : CreatedIssue) : PyVal :=
  PyVal.pdict [
    ("iid", PyVal.pint i.iid),
    ("id", PyVal.pint i.id),
    ("title", PyVal.pstr i.title),
    ("web_url", PyVal.pstr i.web_url),
    ("state", PyVal.pstr i.state),
    ("created_at", PyVal.pstr i.created_at)]

/-- `gitlab_create_issue` (lines 188-232). -/
def gitlab_create_issue (env : Env) (project_id title : String)
    (description : String := "") (labels : Option (List String) := none)
    (assignee_ids : Option (List Int) := none) : M Req String :=
  catchRequestExc
    (mbind (hreq (Req.createIssue project_id
                    (gitlab_create_issue_data title description labels assignee_ids))
                 (env.createIssue project_id
                    (gitlab_create_issue_data title description labels assignee_ids)))
      (fun sb =>
        mbind (raise_for_status sb.1) (fun _ =>
          mret (dumps (projCreatedIssue sb.2)))))
    (fun m => mret ("Error creating issue: " ++ m))

/-- Projection in `gitlab_get_issue` (lines 253-266): full description. -/
def projIssueDetail (i : Issue) : PyVal :=
  PyVal.pdict [
    ("iid", PyVal.pint i.iid),
    ("id", PyVal.pint i.id),
    ("title", PyVal.pstr i.title),
    ("state", PyVal.pstr i.state),
    ("author", PyVal.pstr i.author.username),
    ("created_at", PyVal.pstr i.created_at),
    ("updated_at", PyVal.pstr i.updated_at),
    ("labels", PyVal.plist ((i.labels.getD []).map PyVal.pstr)),
    ("assignees", PyVal.plist ((i.assignees.getD []).map (fun a => PyVal.pstr a.username))),
    ("user_notes_count", PyVal.pint i.user_notes_count),
    ("description", PyVal.pstr (i.description.getD "")),
    ("web_url", PyVal.pstr i.web_url)]

/-- `gitlab_get_issue` (lines 234-271). -/
def gitlab_get_issue (env : Env) (project_id : String) (issue_iid : Int) :
    M Req String :=
  catchRequestExc
    (mbind (hreq (Req.issue project_id issue_iid)
                 (env.issue project_id issue_iid)) (fun sb =>
      mbind (raise_for_status sb.1) (fun _ =>
        mret (dumps (projIssueDetail sb.2)))))
    (fun m => mret ("Error fetching issue: " ++ m))

/-- Not-found envelope of `gitlab_get_file` (lines 306-312). -/
def file_not_found (project_id file_path branch : String) : PyVal :=
  PyVal.pdict [
    ("project", PyVal.pstr project_id),
    ("file_path", PyVal.pstr file_path),
    ("branch", PyVal.pstr branch),
    ("error", PyVal.pstr ("File '" ++ file_path ++ "' not found in project "
      ++ project_id ++ " on branch " ++ branch)),
    ("suggestion", PyVal.pstr
      "Check the file path and branch name. Use list_repository_tree to see available files.")]

/-- Binary-file envelope of `gitlab_get_file` (lines 323-332). -/
def binary_file (project_id file_path branch : String) (size : Int)
    (encoding : String) : PyVal :=
  PyVal.pdict [
    ("project", PyVal.pstr project_id),
    ("file_path", PyVal.pstr file_path),
    ("branch", PyVal.pstr branch),
    ("error", PyVal.pstr "File appears to be binary and cannot be displayed as text"),
    ("file_info", PyVal.pdict [
      ("size", PyVal.pint size),
      ("encoding", PyVal.pstr encoding)])]

/-- Success envelope of `gitlab_get_file` (lines 339-347). -/
def file_success (project_id file_path branch : String) (fd : FileData)
    (content : String) : PyVal :=
  PyVal.pdict [
    ("project", PyVal.pstr project_id),
    ("file_path", PyVal.pstr file_path),
    ("branch", PyVal.pstr branch),
    ("size", PyVal.pint fd.size),
    ("encoding", PyVal.pstr (fd.encoding.getD "base64")),
    ("content", PyVal.pstr content),
    ("last_commit_id", match fd.last_commit_id with
      | none => PyVal.pnull
      | some c => PyVal.pstr c)]

/-- Outer `except requests.RequestException` envelope of `gitlab_get_file`
(lines 351-357). -/
def file_fetch_error (project_id file_path branch msg : String) : PyVal :=
  PyVal.pdict [
    ("project", PyVal.pstr project_id),
    ("file_path", PyVal.pstr file_path),
    ("branch", PyVal.pstr branch),
    ("error", PyVal.pstr ("Error fetching file: " ++ msg))]

/-- `gitlab_get_file` (lines 273-357), with the same guarded branch-fallback
recursion as the GitHub `get_file`. -/
def gitlab_get_file (env : Env) (project_id file_path : String)
    (branch : String := "main") : M Req String :=
  catchRequestExc
    (mbind (hreq (Req.file project_id file_path branch)
                 (env.file project_id file_path branch)) (fun sb =>
      if sb.1 == 404 then
        mbind
          (if _hb : branch = "main" then
            catchRequestExc
              (mbind (hreq (Req.projectInfo project_id)
                           (env.projectMeta project_id)) (fun sb2 =>
                if sb2.1 == 200 then
                  if _hd : sb2.2.default_branch.getD "master" ≠ "main" then
                    mbind (gitlab_get_file env project_id file_path
                             (sb2.2.default_branch.getD "master"))
                      (fun s => mret (some s))
                  else mret (none : Option String)
                else mret (none : Option String)))
              (fun _ => mret (none : Option String))
          else mret (none : Option String))
          (fun fallback =>
            match fallback with
            | some s => mret s
            | none => mret (dumps (file_not_found project_id file_path branch)))
      else
        mbind (raise_for_status sb.1) (fun _ =>
          match decode_utf8 sb.2.content with
          | Except.error _ =>
            mret (dumps (binary_file project_id file_path branch
                          sb.2.size (sb.2.encoding.getD "base64")))
          | Except.ok content =>
            mret (dumps (file_success project_id file_path branch sb.2
                          (truncate_content content))))))
    (fun m => mret (dumps (file_fetch_error project_id file_path branch m)))
termination_by (if branch = "main" then 1 else 0)
decreasing_by simp_all

/-- A projected tree-listing item (lines 393-398). -/
structure TItem where
  name : String
  typ : String
  path : String
  mode : String
deriving DecidableEq

/-- The sort key of `list_repository_tree` (line 401):
`(x["type"] != "tree", x["name"].lower())`. -/
def titemKey (i : TItem) : Bool × List Char := (decide (i.typ ≠ "tree"), pyLower i.name)

/-- The comparison induced by the GitLab tree-listing sort key. -/
def titemLe (a b : TItem) : Bool := keyLe (titemKey a) (titemKey b)

/-- Projection of one tree entry into an item (lines 393-398). -/
def toTItem (e : TreeEntry) : TItem :=
  { name := e.name, typ := e.typ, path := e.path, mode := e.mode }

def projTItem (i : TItem) : PyVal :=
  PyVal.pdict [
    ("name", PyVal.pstr i.name),
    ("type", PyVal.pstr i.typ),
    ("path", PyVal.pstr i.path),
    ("mode", PyVal.pstr i.mode)]

/-- `list_repository_tree` (lines 359-419). -/
def list_repository_tree (env : Env) (project_id : String)
    (path : String := "") (branch : String := "main") : M Req String :=
  catchRequestExc
    (mbind (hreq (Req.tree project_id path branch)
                 (env.tree project_id path branch)) (fun sb =>
      if sb.1 == 404 then
        mret (dumps (PyVal.pdict [
          ("project", PyVal.pstr project_id),
          ("path", PyVal.pstr (orSlash path)),
          ("branch", PyVal.pstr branch),
          ("error", PyVal.pstr ("Path '" ++ path ++ "' not found in project "
            ++ project_id ++ " on branch " ++ branch))]))
      else
        mbind (raise_for_status sb.1) (fun _ =>
          let items := stableSort titemLe (sb.2.map toTItem)
          mret (dumps (PyVal.pdict [
            ("project", PyVal.pstr project_id),
            ("path", PyVal.pstr (orSlash path)),
            ("branch", PyVal.pstr branch),
            ("total_items", PyVal.pint items.length),
            ("contents", PyVal.plist (items.map projTItem))])))))
    (fun m => mret (dumps (PyVal.pdict [
      ("project", PyVal.pstr project_id),
      ("path", PyVal.pstr (orSlash path)),
      ("branch", PyVal.pstr branch),
      ("error", PyVal.pstr ("Error fetching tree: " ++ m))])))

/-- Projection of one search hit (lines 448-458). -/
def projSearchProject (p : Project) : PyVal :=
  PyVal.pdict [
    ("id", PyVal.pint p.id),
    ("name", PyVal.pstr p.name),
    ("path_with_namespace", PyVal.pstr p.path_with_namespace),
    ("description", PyVal.pstr (p.description.getD "")),
    ("visibility", PyVal.pstr p.visibility),
    ("stars", PyVal.pint p.star_count),
    ("forks", PyVal.pint p.forks_count),
    ("last_activity_at", PyVal.pstr p.last_activity_at),
    ("web_url", PyVal.pstr p.web_url)]

/-- `search_projects` (lines 421-466). -/
def search_projects (env : Env) (query : String)
    (order_by : String := "last_activity_at") (sort : String := "desc")
    (per_page : Int := 30) : M Req String :=
  catchRequestExc
    (mbind (hreq (Req.searchProjects query order_by sort (min per_page 100))
                 (env.searchProjects query order_by sort (min per_page 100)))
      (fun sb =>
        mbind (raise_for_status sb.1) (fun _ =>
          mret (dumps (PyVal.pdict [
            ("total_results", PyVal.pint (sb.2.map projSearchProject).length),
            ("projects", PyVal.plist (sb.2.map projSearchProject))])))))
    (fun m => mret ("Error searching projects: " ++ m))

/-- Projection of one merge request (lines 497-512), including the
500-character description truncation. -/
def projMergeRequest (mr : MergeRequest) : PyVal :=
  PyVal.pdict [
    ("iid", PyVal.pint mr.iid),
    ("id", PyVal.pint mr.id),
    ("title", PyVal.pstr mr.title),
    ("state", PyVal.pstr mr.state),
    ("author", PyVal.pstr mr.author.username),
    ("source_branch", PyVal.pstr mr.source_branch),
    ("target_branch", PyVal.pstr mr.target_branch),
    ("created_at", PyVal.pstr mr.created_at),
    ("updated_at", PyVal.pstr mr.updated_at),
    ("labels", PyVal.plist ((mr.labels.getD []).map PyVal.pstr)),
    ("assignees", PyVal.plist ((mr.assignees.getD []).map (fun a => PyVal.pstr a.username))),
    ("user_notes_count", PyVal.pint mr.user_notes_count),
    ("web_url", PyVal.pstr mr.web_url),
    ("description", PyVal.pstr (truncate_body (mr.description.getD "")))]

/-- `list_merge_requests` (lines 468-517). -/
def list_merge_requests (env : Env) (project_id : String)
    (state : String := "opened") (per_page : Int := 30) : M Req String :=
  catchRequestExc
    (mbind (hreq (Req.mergeRequests project_id state (min per_page 100))
                 (env.mergeRequests project_id state (min per_page 100))) (fun sb =>
      mbind (raise_for_status sb.1) (fun _ =>
        mret (dumps (PyVal.plist (sb.2.map projMergeRequest))))))
    (fun m => mret ("Error fetching merge requests: " ++ m))

/-- Alias for `gitlab_list_issues` (lines 520-523). -/
def list_issues (env : Env) (project_id : String) (state : String := "opened")
    (per_page : Int := 30) : M Req String :=
  gitlab_list_issues env project_id state per_page

/-- Alias for `gitlab_create_issue` (lines 525-528). -/
def create_issue (env : Env) (project_id title : String)
    (description : String := "") (labels : Option (List String) := none)
    (assignee_ids : Option (List Int) := none) : M Req String :=
  gitlab_create_issue env project_id title description labels assignee_ids

/-- Alias for `gitlab_get_issue` (lines 530-533). -/
def get_issue (env : Env) (project_id : String) (issue_iid : Int) : M Req String :=
  gitlab_get_issue env project_id issue_iid

/-- Alias for `gitlab_get_file` (lines 535-538). -/
def get_file (env : Env) (project_id file_path : String)
    (branch : String := "main") : M Req String :=
  gitlab_get_file env project_id file_path branch

end Gitlab

namespace Github

/-- Recognizes a content fetch (`GET .../contents/...`). -/
def isContentsReq : Req → Bool
  | Req.contents _ _ _ _ => true
  | _ => false

/-- Recognizes a repository-metadata fetch (`GET /repos/{owner}/{repo}`). -/
def isRepoInfoReq : Req → Bool
  | Req.repoInfo _ _ => true
  | _ => false

end Github

namespace Gitlab

/-- Recognizes a file fetch (`GET .../repository/files/...`). -/
def isFileReq : Req → Bool
  | Req.file _ _ _ => true
  | _ => false

/-- Recognizes a project-metadata fetch (`GET /projects/{id}`). -/
def isProjectInfoReq : Req → Bool
  | Req.projectInfo _ => true
  | _ => false

end Gitlab

/-- A concrete GitHub collaborator: every endpoint answers with status `st`
and an empty/trivial body. -/
def ghEnvAt (st : Nat) : Github.Env :=
  { userRepos := fun _ _ => Except.ok (st, [])
    repoInfo := fun _ _ =>
      Except.ok (st, ⟨"", "", none, false, 0, 0, none, "", "", "", none, none, "", ""⟩)
    repoMeta := fun _ _ => Except.ok (st, ⟨none⟩)
    issues := fun _ _ _ _ => Except.ok (st, [])
    createIssue := fun _ _ _ => Except.ok (st, ⟨0, "", "", "", ""⟩)
    issue := fun _ _ _ =>
      Except.ok (st, ⟨0, "", "", ⟨""⟩, "", "", none, none, 0, none, false, ""⟩)
    fileContents := fun _ _ _ _ =>
      Except.ok (st, ⟨some "file", PyBytes.text "", 0, none, none, none⟩)
    dirContents := fun _ _ _ _ => Except.ok (st, Github.ContentsResp.listing [])
    searchRepos := fun _ _ _ _ => Except.ok (st, ⟨0, []⟩) }

/-- A concrete GitLab collaborator: every endpoint answers with status `st`
and an empty/trivial body. -/
def glEnvAt (st : Nat) : Gitlab.Env :=
  { usersSearch := fun _ => Except.ok (st, [⟨7⟩])
    groupsSearch := fun _ => Except.ok (st, [])
    userProjects := fun _ _ => Except.ok (st, [])
    groupProjects := fun _ _ => Except.ok (st, [])
    allProjects := fun _ => Except.ok (st, [])
    projectInfo := fun _ =>
      Except.ok (st, ⟨0, "", "", none, "", 0, 0, none, "", "", none, "", "", "", false, false⟩)
    projectMeta := fun _ => Except.ok (st, ⟨none⟩)
    issues := fun _ _ _ => Except.ok (st, [])
    createIssue := fun _ _ => Except.ok (st, ⟨0, 0, "", "", "", ""⟩)
    issue := fun _ _ =>
      Except.ok (st, ⟨0, 0, "", "", ⟨""⟩, "", "", none, none, 0, "", none⟩)
    file := fun _ _ _ =>
      Except.ok (st, ⟨PyBytes.text "", 0, none, none⟩)
    tree := fun _ _ _ => Except.ok (st, [])
    searchProjects := fun _ _ _ _ => Except.ok (st, [])
    mergeRequests := fun _ _ _ => Except.ok (st, []) }

/-- Did the computation produce a value (as opposed to an uncaught
exception)? -/
def isOkExc {α : Type} : Except PyExc α → Bool
  | Except.ok _ => true
  | Except.error _ => false

/-- The run of a tool returned a string to its caller (as opposed to
propagating an uncaught Python exception). -/
def okRun {ρ α : Type} (r : Except PyExc α × List ρ) : Prop :=
  isOkExc r.1 = true

/-- The content requests a GitHub `get_file` run issues after the fallback
metadata lookup (none, or the single retried fetch on the default branch). -/
def ghFallbackReqs (env : Github.Env) (owner repo file_path : String) :
    List Github.Req :=
  match env.repoMeta owner repo with
  | Except.error _ => []
  | Except.ok (st2, meta) =>
    if st2 = 200 then
      if meta.default_branch.getD "master" = "main" then []
      else [Github.Req.contents owner repo file_path
              (meta.default_branch.getD "master")]
    else []

/-- The content requests a GitLab `gitlab_get_file` run issues after the
fallback metadata lookup. -/
def glFallbackReqs (env : Gitlab.Env) (project_id file_path : String) :
    List Gitlab.Req :=
  match env.projectMeta project_id with
  | Except.error _ => []
  | Except.ok (st2, meta) =>
    if st2 = 200 then
      if meta.default_branch.getD "master" = "main" then []
      else [Gitlab.Req.file project_id file_path
              (meta.default_branch.getD "master")]
    else []

/-- GitLab collaborator whose user search finds a user and whose project
listings fail with 500. -/
def glUserEnv : Gitlab.Env :=
  { glEnvAt 500 with usersSearch := fun _ => Except.ok (200, [⟨7⟩]) }

/-- GitLab collaborator with no matching user, one matching group, and
project listings failing with 500. -/
def glGroupEnv : Gitlab.Env :=
  { glEnvAt 500 with
      usersSearch := fun _ => Except.ok (200, [])
      groupsSearch := fun _ => Except.ok (200, [⟨9⟩]) }

/-- GitHub collaborator exercising the branch fallback: content requests 404
on `"main"` and succeed elsewhere; metadata declares default `"master"`. -/
def ghFallbackEnv : Github.Env :=
  { ghEnvAt 200 with
      fileContents := fun _ _ _ ref =>
        if ref = "main" then
          Except.ok (404, ⟨some "file", PyBytes.text "hello", 5, none, none, none⟩)
        else
          Except.ok (200, ⟨some "file", PyBytes.text "hello", 5, none, none, none⟩)
      repoMeta := fun _ _ => Except.ok (200, ⟨some "master"⟩) }

/-- GitLab collaborator exercising the branch fallback. -/
def glFallbackEnv : Gitlab.Env :=
  { glEnvAt 200 with
      file := fun _ _ ref =>
        if ref = "main" then Except.ok (404, ⟨PyBytes.text "hello", 5, none, none⟩)
        else Except.ok (200, ⟨PyBytes.text "hello", 5, none, none⟩)
      projectMeta := fun _ => Except.ok (200, ⟨some "master"⟩) }

/-! ## Theorems -/

theorem lexLe_total (a b : List Char) : lexLe a b = true ∨ lexLe b a = true := by
  induction a generalizing b with
  | nil => exact Or.inl rfl
  | cons x xs ih =>
    cases b with
    | nil => exact Or.inr rfl
    | cons y ys =>
      rcases lt_trichotomy x y with h | h | h
      · exact Or.inl (by simp [lexLe, h])
      · subst h
        rcases ih ys with h2 | h2
        · exact Or.inl (by simp [lexLe, h2])
        · exact Or.inr (by simp [lexLe, h2])
      · exact Or.inr (by simp [lexLe, h])

theorem lexLe_trans {a b c : List Char} (h1 : lexLe a b = true)
    (h2 : lexLe b c = true) : lexLe a c = true := by
  induction a generalizing b c with
  | nil => rfl
  | cons x xs ih =>
    cases b with
    | nil => simp [lexLe] at h1
    | cons y ys =>
      cases c with
      | nil => simp [lexLe] at h2
      | cons z zs =>
        rcases lt_trichotomy x y with hxy | hxy | hxy
        · rcases lt_trichotomy y z with hyz | hyz | hyz
          · simp [lexLe, lt_trans hxy hyz]
          · subst hyz; simp [lexLe, hxy]
          · simp [lexLe, lt_asymm hyz, ne_of_gt hyz] at h2
        · subst hxy
          simp only [lexLe, lt_irrefl, if_neg (lt_irrefl x), if_pos rfl] at h1
          rcases lt_trichotomy x z with hyz | hyz | hyz
          · simp [lexLe, hyz]
          · subst hyz
            simp only [lexLe, lt_irrefl, if_neg (lt_irrefl x), if_pos rfl] at h2 ⊢
            exact ih h1 h2
          · simp [lexLe, lt_asymm hyz, ne_of_gt hyz] at h2
        · simp [lexLe, lt_asymm hxy, ne_of_gt hxy] at h1

theorem lexLe_antisymm {a b : List Char} (h1 : lexLe a b = true)
    (h2 : lexLe b a = true) : a = b := by
  induction a generalizing b with
  | nil =>
    cases b with
    | nil => rfl
    | cons y ys => simp [lexLe] at h2
  | cons x xs ih =>
    cases b with
    | nil => simp [lexLe] at h1
    | cons y ys =>
      rcases lt_trichotomy x y with hxy | hxy | hxy
      · simp [lexLe, lt_asymm hxy, ne_of_gt hxy] at h2
      · subst hxy
        simp only [lexLe, if_neg (lt_irrefl x), if_pos rfl] at h1 h2
        rw [ih h1 h2]
      · simp [lexLe, lt_asymm hxy, ne_of_gt hxy] at h1

theorem keyLe_total (p q : Bool × List Char) :
    keyLe p q = true ∨ keyLe q p = true := by
  obtain ⟨p1, p2⟩ := p
  obtain ⟨q1, q2⟩ := q
  cases p1 <;> cases q1 <;> simp [keyLe] <;> exact lexLe_total p2 q2

theorem keyLe_trans {p q r : Bool × List Char} (h1 : keyLe p q = true)
    (h2 : keyLe q r = true) : keyLe p r = true := by
  obtain ⟨p1, p2⟩ := p
  obtain ⟨q1, q2⟩ := q
  obtain ⟨r1, r2⟩ := r
  cases p1 <;> cases q1 <;> cases r1 <;>
    simp [keyLe] at h1 h2 ⊢ <;>
    first
      | exact lexLe_trans h1 h2
      | exact h1
      | exact h2
      | exact absurd h1 (by decide)
      | exact absurd h2 (by decide)

theorem keyLe_antisymm {p q : Bool × List Char} (h1 : keyLe p q = true)
    (h2 : keyLe q p = true) : p = q := by
  obtain ⟨p1, p2⟩ := p
  obtain ⟨q1, q2⟩ := q
  cases p1 <;> cases q1 <;> simp [keyLe] at h1 h2 ⊢ <;>
    first
      | exact lexLe_antisymm h1 h2
      | exact absurd h1 (by decide)
      | exact absurd h2 (by decide)

theorem mem_stableInsert {α : Type} (le : α → α → Bool) (x b : α) (l : List α) :
    b ∈ stableInsert le x l ↔ b = x ∨ b ∈ l := by
  induction l with
  | nil => simp [stableInsert]
  | cons y ys ih =>
    by_cases h : le x y = true
    · simp [stableInsert, h]
    · simp only [stableInsert, if_neg h, List.mem_cons, ih]
      tauto

theorem pairwise_stableInsert {α : Type} (le : α → α → Bool)
    (htot : ∀ a b, le a b = true ∨ le b a = true)
    (htrans : ∀ a b c, le a b = true → le b c = true → le a c = true)
    (x : α) (l : List α)
    (hl : List.Pairwise (fun a b => le a b = true) l) :
    List.Pairwise (fun a b => le a b = true) (stableInsert le x l) := by
  induction l with
  | nil => simp [stableInsert]
  | cons y ys ih =>
    rcases hl with - | ⟨hy, hys⟩
    by_cases hxy : le x y = true
    · simp only [stableInsert, hxy, if_pos]
      refine List.Pairwise.cons ?_ (List.Pairwise.cons hy hys)
      intro b hb
      rcases List.mem_cons.mp hb with rfl | hb
      · exact hxy
      · exact htrans _ _ _ hxy (hy b hb)
    · simp only [stableInsert, hxy]
      refine List.Pairwise.cons ?_ (ih hys)
      intro b hb
      rcases (mem_stableInsert le x b ys).mp hb with rfl | hb2
      · exact (htot b y).resolve_left (by simpa using hxy)
      · exact hy b hb2

theorem pairwise_stableSort {α : Type} (le : α → α → Bool)
    (htot : ∀ a b, le a b = true ∨ le b a = true)
    (htrans : ∀ a b c, le a b = true → le b c = true → le a c = true)
    (l : List α) :
    List.Pairwise (fun a b => le a b = true) (stableSort le l) := by
  induction l with
  | nil => exact List.Pairwise.nil
  | cons x xs ih => exact pairwise_stableInsert le htot htrans x _ ih

theorem stableSort_eq_of_pairwise {α : Type} (le : α → α → Bool) (l : List α)
    (hl : List.Pairwise (fun a b => le a b = true) l) :
    stableSort le l = l := by
  induction l with
  | nil => rfl
  | cons x xs ih =>
    rcases hl with - | ⟨hx, hxs⟩
    rw [stableSort, ih hxs]
    cases xs with
    | nil => rfl
    | cons y ys =>
      have hle : le x y = true := hx y (List.mem_cons_self _ _)
      simp [stableInsert, hle]

theorem stableSort_idem {α : Type} (le : α → α → Bool)
    (htot : ∀ a b, le a b = true ∨ le b a = true)
    (htrans : ∀ a b c, le a b = true → le b c = true → le a c = true)
    (l : List α) :
    stableSort le (stableSort le l) = stableSort le l :=
  stableSort_eq_of_pairwise le (stableSort le l)
    (pairwise_stableSort le htot htrans l)


@[simp] theorem mret_apply {ρ α : Type} (a : α) (t : List ρ) :
    mret a t = (Except.ok a, t) := rfl

@[simp] theorem mthrow_apply {ρ α : Type} (e : PyExc) (t : List ρ) :
    (mthrow e : M ρ α) t = (Except.error e, t) := rfl

@[simp] theorem mbind_apply {ρ α β : Type} (x : M ρ α) (f : α → M ρ β)
    (t : List ρ) :
    mbind x f t = match x t with
      | (Except.ok a, t2) => f a t2
      | (Except.error e, t2) => (Except.error e, t2) := rfl

@[simp] theorem hreq_ok {ρ α : Type} (req : ρ) (sb : Nat × α) (t : List ρ) :
    hreq req (Except.ok sb) t = (Except.ok sb, t ++ [req]) := rfl

@[simp] theorem hreq_err {ρ α : Type} (req : ρ) (m : String) (t : List ρ) :
    (hreq req (Except.error m) : M ρ (Nat × α)) t
      = (Except.error (PyExc.requestException m), t ++ [req]) := rfl

@[simp] theorem catchRequestExc_apply {ρ α : Type} (x : M ρ α)
    (h : String → M ρ α) (t : List ρ) :
    catchRequestExc x h t = match x t with
      | (Except.error (PyExc.requestException m), t2) => h m t2
      | r => r := rfl

theorem raise_for_status_lt {ρ : Type} (s : Nat) (h : s < 400) (t : List ρ) :
    (raise_for_status s : M ρ Unit) t = (Except.ok (), t) := by
  simp [raise_for_status, Nat.not_le_of_lt h]

theorem raise_for_status_err {ρ : Type} (s : Nat) (h1 : 400 ≤ s) (h2 : s < 600)
    (t : List ρ) :
    (raise_for_status s : M ρ Unit) t
      = (Except.error (PyExc.requestException (statusMessage s)), t) := by
  simp [raise_for_status, h1, h2]

theorem lexLe_refl (a : List Char) : lexLe a a = true := by
  induction a with
  | nil => rfl
  | cons x xs ih => simp [lexLe, ih]

theorem keyLe_refl (p : Bool × List Char) : keyLe p p = true := by
  simp [keyLe, lexLe_refl]

theorem gh_get_file_trace_not_main (env : Github.Env) (o r p b : String)
    (hb : ¬ b = "main") (t0 : List Github.Req) :
    (Github.get_file env o r p b t0).2 = t0 ++ [Github.Req.contents o r p b] := by
  unfold Github.get_file
  rcases hres : env.fileContents o r p b with m | ⟨st, fd⟩
  · simp [hres]
  · by_cases h404 : st = 404
    · simp [hres, h404, hb]
    · by_cases herr : 400 ≤ st ∧ st < 600
      · simp [hres, h404, raise_for_status, herr]
      · by_cases hty : fd.typ = some "file"
        · rcases hdec : decode_utf8 fd.content with e | c
          · simp [hres, h404, raise_for_status, herr, hty, hdec]
          · simp [hres, h404, raise_for_status, herr, hty, hdec]
        · simp [hres, h404, raise_for_status, herr, hty]

theorem gh_get_file_trace_main_err (env : Github.Env) (o r p : String)
    (m : String) (hres : env.fileContents o r p "main" = Except.error m)
    (t0 : List Github.Req) :
    (Github.get_file env o r p "main" t0).2
      = t0 ++ [Github.Req.contents o r p "main"] := by
  unfold Github.get_file
  simp [hres]

theorem gh_get_file_trace_main_no404 (env : Github.Env) (o r p : String)
    (st : Nat) (fd : Github.FileData)
    (hres : env.fileContents o r p "main" = Except.ok (st, fd))
    (h404 : ¬ st = 404) (t0 : List Github.Req) :
    (Github.get_file env o r p "main" t0).2
      = t0 ++ [Github.Req.contents o r p "main"] := by
  unfold Github.get_file
  by_cases herr : 400 ≤ st ∧ st < 600
  · simp [hres, h404, raise_for_status, herr]
  · by_cases hty : fd.typ = some "file"
    · rcases hdec : decode_utf8 fd.content with e | c
      · simp [hres, h404, raise_for_status, herr, hty, hdec]
      · simp [hres, h404, raise_for_status, herr, hty, hdec]
    · simp [hres, h404, raise_for_status, herr, hty]

theorem gh_get_file_trace_main_404 (env : Github.Env) (o r p : String)
    (fd : Github.FileData)
    (hres : env.fileContents o r p "main" = Except.ok (404, fd))
    (t0 : List Github.Req) :
    (Github.get_file env o r p "main" t0).2
      = t0 ++ [Github.Req.contents o r p "main", Github.Req.repoInfo o r]
           ++ ghFallbackReqs env o r p := by
  unfold Github.get_file
  rcases hmeta : env.repoMeta o r with m2 | ⟨st2, meta⟩
  · simp [hres, hmeta, ghFallbackReqs]
  · by_cases h200 : st2 = 200
    · by_cases hdb : meta.default_branch.getD "master" = "main"
      · simp [hres, hmeta, h200, hdb, ghFallbackReqs]
      · have htr := gh_get_file_trace_not_main env o r p
          (meta.default_branch.getD "master") hdb
          (t0 ++ [Github.Req.contents o r p "main", Github.Req.repoInfo o r])
        rcases hrec : Github.get_file env o r p (meta.default_branch.getD "master")
            (t0 ++ [Github.Req.contents o r p "main", Github.Req.repoInfo o r])
          with ⟨res, tr⟩
        rw [hrec] at htr
        simp only at htr
        rcases res with e | s
        · rcases e with m3 | m3 <;>
            simp [hres, hmeta, h200, hdb, hrec, htr, ghFallbackReqs]
        · simp [hres, hmeta, h200, hdb, hrec, htr, ghFallbackReqs]
    · simp [hres, hmeta, h200, ghFallbackReqs]

theorem gl_get_file_trace_not_main (env : Gitlab.Env) (pid p b : String)
    (hb : ¬ b = "main") (t0 : List Gitlab.Req) :
    (Gitlab.gitlab_get_file env pid p b t0).2
      = t0 ++ [Gitlab.Req.file pid p b] := by
  unfold Gitlab.gitlab_get_file
  rcases hres : env.file pid p b with m | ⟨st, fd⟩
  · simp [hres]
  · by_cases h404 : st = 404
    · simp [hres, h404, hb]
    · by_cases herr : 400 ≤ st ∧ st < 600
      · simp [hres, h404, raise_for_status, herr]
      · rcases hdec : decode_utf8 fd.content with e | c
        · simp [hres, h404, raise_for_status, herr, hdec]
        · simp [hres, h404, raise_for_status, herr, hdec]

theorem gl_get_file_trace_main_err (env : Gitlab.Env) (pid p : String)
    (m : String) (hres : env.file pid p "main" = Except.error m)
    (t0 : List Gitlab.Req) :
    (Gitlab.gitlab_get_file env pid p "main" t0).2
      = t0 ++ [Gitlab.Req.file pid p "main"] := by
  unfold Gitlab.gitlab_get_file
  simp [hres]

theorem gl_get_file_trace_main_no404 (env : Gitlab.Env) (pid p : String)
    (st : Nat) (fd : Gitlab.FileData)
    (hres : env.file pid p "main" = Except.ok (st, fd))
    (h404 : ¬ st = 404) (t0 : List Gitlab.Req) :
    (Gitlab.gitlab_get_file env pid p "main" t0).2
      = t0 ++ [Gitlab.Req.file pid p "main"] := by
  unfold Gitlab.gitlab_get_file
  by_cases herr : 400 ≤ st ∧ st < 600
  · simp [hres, h404, raise_for_status, herr]
  · rcases hdec : decode_utf8 fd.content with e | c
    · simp [hres, h404, raise_for_status, herr, hdec]
    · simp [hres, h404, raise_for_status, herr, hdec]

theorem gl_get_file_trace_main_404 (env : Gitlab.Env) (pid p : String)
    (fd : Gitlab.FileData)
    (hres : env.file pid p "main" = Except.ok (404, fd))
    (t0 : List Gitlab.Req) :
    (Gitlab.gitlab_get_file env pid p "main" t0).2
      = t0 ++ [Gitlab.Req.file pid p "main", Gitlab.Req.projectInfo pid]
           ++ glFallbackReqs env pid p := by
  unfold Gitlab.gitlab_get_file
  rcases hmeta : env.projectMeta pid with m2 | ⟨st2, meta⟩
  · simp [hres, hmeta, glFallbackReqs]
  · by_cases h200 : st2 = 200
    · by_cases hdb : meta.default_branch.getD "master" = "main"
      · simp [hres, hmeta, h200, hdb, glFallbackReqs]
      · have htr := gl_get_file_trace_not_main env pid p
          (meta.default_branch.getD "master") hdb
          (t0 ++ [Gitlab.Req.file pid p "main", Gitlab.Req.projectInfo pid])
        rcases hrec : Gitlab.gitlab_get_file env pid p
            (meta.default_branch.getD "master")
            (t0 ++ [Gitlab.Req.file pid p "main", Gitlab.Req.projectInfo pid])
          with ⟨res, tr⟩
        rw [hrec] at htr
        simp only at htr
        rcases res with e | s
        · rcases e with m3 | m3 <;>
            simp [hres, hmeta, h200, hdb, hrec, htr, glFallbackReqs]
        · simp [hres, hmeta, h200, hdb, hrec, htr, glFallbackReqs]
    · simp [hres, hmeta, h200, glFallbackReqs]

theorem ghFallbackReqs_counts (env : Github.Env) (o r p : String) :
    List.countP Github.isRepoInfoReq (ghFallbackReqs env o r p) = 0
    ∧ List.countP Github.isContentsReq (ghFallbackReqs env o r p) ≤ 1 := by
  unfold ghFallbackReqs
  rcases env.repoMeta o r with m | ⟨st2, meta⟩
  · simp
  · by_cases h200 : st2 = 200
    · by_cases hdb : meta.default_branch.getD "master" = "main" <;>
        simp [h200, hdb, Github.isRepoInfoReq, Github.isContentsReq]
    · simp [h200]

theorem glFallbackReqs_counts (env : Gitlab.Env) (pid p : String) :
    List.countP Gitlab.isProjectInfoReq (glFallbackReqs env pid p) = 0
    ∧ List.countP Gitlab.isFileReq (glFallbackReqs env pid p) ≤ 1 := by
  unfold glFallbackReqs
  rcases env.projectMeta pid with m | ⟨st2, meta⟩
  · simp
  · by_cases h200 : st2 = 200
    · by_cases hdb : meta.default_branch.getD "master" = "main" <;>
        simp [h200, hdb, Gitlab.isProjectInfoReq, Gitlab.isFileReq]
    · simp [h200]

theorem gh_fallback_characterization (env : Github.Env) (o r p b : String) :
    ((Github.Req.repoInfo o r ∈ (Github.get_file env o r p b []).2)
      ↔ (b = "main" ∧ ∃ fd, env.fileContents o r p b = Except.ok (404, fd)))
    ∧ (2 ≤ List.countP Github.isContentsReq (Github.get_file env o r p b []).2
        → (b = "main" ∧ ∃ fd, env.fileContents o r p b = Except.ok (404, fd)))
    ∧ List.countP Github.isRepoInfoReq (Github.get_file env o r p b []).2 ≤ 1
    ∧ List.countP Github.isContentsReq (Github.get_file env o r p b []).2 ≤ 2 := by
  by_cases hb : b = "main"
  · subst hb
    rcases hres : env.fileContents o r p "main" with m | ⟨st, fd⟩
    · rw [gh_get_file_trace_main_err env o r p m hres]
      simp [Github.isContentsReq, Github.isRepoInfoReq, hres, List.countP_cons]
    · by_cases h404 : st = 404
      · subst h404
        rw [gh_get_file_trace_main_404 env o r p fd hres]
        have h0 := (ghFallbackReqs_counts env o r p).1
        have h1 := (ghFallbackReqs_counts env o r p).2
        refine ⟨?_, ?_, ?_, ?_⟩
        · simp [hres]
        · intro _
          exact ⟨rfl, fd, rfl⟩
        · simp [List.countP_append, List.countP_cons, Github.isRepoInfoReq,
            Github.isContentsReq, h0]
        · simp only [List.countP_append, List.countP_cons, List.countP_nil,
            List.nil_append]
          simp [Github.isRepoInfoReq, Github.isContentsReq]
          omega
      · rw [gh_get_file_trace_main_no404 env o r p st fd hres h404]
        simp [Github.isContentsReq, Github.isRepoInfoReq, hres, h404,
          List.countP_cons]
  · rw [gh_get_file_trace_not_main env o r p b hb]
    simp [Github.isContentsReq, Github.isRepoInfoReq, hb, List.countP_cons]

theorem gl_fallback_characterization (env : Gitlab.Env) (pid p b : String) :
    ((Gitlab.Req.projectInfo pid ∈ (Gitlab.gitlab_get_file env pid p b []).2)
      ↔ (b = "main" ∧ ∃ fd, env.file pid p b = Except.ok (404, fd)))
    ∧ (2 ≤ List.countP Gitlab.isFileReq (Gitlab.gitlab_get_file env pid p b []).2
        → (b = "main" ∧ ∃ fd, env.file pid p b = Except.ok (404, fd)))
    ∧ List.countP Gitlab.isProjectInfoReq
        (Gitlab.gitlab_get_file env pid p b []).2 ≤ 1
    ∧ List.countP Gitlab.isFileReq (Gitlab.gitlab_get_file env pid p b []).2 ≤ 2 := by
  by_cases hb : b = "main"
  · subst hb
    rcases hres : env.file pid p "main" with m | ⟨st, fd⟩
    · rw [gl_get_file_trace_main_err env pid p m hres]
      simp [Gitlab.isFileReq, Gitlab.isProjectInfoReq, hres, List.countP_cons]
    · by_cases h404 : st = 404
      · subst h404
        rw [gl_get_file_trace_main_404 env pid p fd hres]
        have h0 := (glFallbackReqs_counts env pid p).1
        have h1 := (glFallbackReqs_counts env pid p).2
        refine ⟨?_, ?_, ?_, ?_⟩
        · simp [hres]
        · intro _
          exact ⟨rfl, fd, rfl⟩
        · simp [List.countP_append, List.countP_cons, Gitlab.isProjectInfoReq,
            Gitlab.isFileReq, h0]
        · simp only [List.countP_append, List.countP_cons, List.countP_nil,
            List.nil_append]
          simp [Gitlab.isProjectInfoReq, Gitlab.isFileReq]
          omega
      · rw [gl_get_file_trace_main_no404 env pid p st fd hres h404]
        simp [Gitlab.isFileReq, Gitlab.isProjectInfoReq, hres, h404,
          List.countP_cons]
  · rw [gl_get_file_trace_not_main env pid p b hb]
    simp [Gitlab.isFileReq, Gitlab.isProjectInfoReq, hb, List.countP_cons]

/-- C1: For every call to the file-fetch operation (GitHub `get_file` /
GitLab `gitlab_get_file`), the default-branch fallback (the metadata lookup)
fires if and only if the requested branch equals `"main"` and the first
content request returns status 404; when the requested branch is anything
other than `"main"`, or the first request succeeds or fails with a non-404
status, no metadata lookup occurs and no second content fetch occurs
(the trace then has at most one content request). -/
theorem github_gitlab_fallback_fires_iff :
    (∀ (env : Github.Env) (o r p b : String),
      ((Github.Req.repoInfo o r ∈ (Github.get_file env o r p b []).2)
        ↔ (b = "main" ∧ ∃ fd, env.fileContents o r p b = Except.ok (404, fd)))
      ∧ (2 ≤ List.countP Github.isContentsReq (Github.get_file env o r p b []).2
          → (b = "main" ∧ ∃ fd, env.fileContents o r p b = Except.ok (404, fd))))
    ∧ (∀ (env : Gitlab.Env) (pid p b : String),
      ((Gitlab.Req.projectInfo pid ∈ (Gitlab.gitlab_get_file env pid p b []).2)
        ↔ (b = "main" ∧ ∃ fd, env.file pid p b = Except.ok (404, fd)))
      ∧ (2 ≤ List.countP Gitlab.isFileReq
            (Gitlab.gitlab_get_file env pid p b []).2
          → (b = "main" ∧ ∃ fd, env.file pid p b = Except.ok (404, fd)))) := by
  constructor
  · intro env o r p b
    have h := gh_fallback_characterization env o r p b
    exact ⟨h.1, h.2.1⟩
  · intro env pid p b
    have h := gl_fallback_characterization env pid p b
    exact ⟨h.1, h.2.1⟩

/-- C1 witness: at a collaborator that 404s on `"main"` and declares default
branch `"master"`, the fallback metadata lookup is in the trace and a second
content fetch occurred; the count hypothesis of the implication is
discharged concretely. -/
theorem github_gitlab_fallback_fires_iff_witness :
    (Github.Req.repoInfo "o" "r" ∈ (Github.get_file ghFallbackEnv "o" "r" "p" "main" []).2)
    ∧ (2 ≤ List.countP Github.isContentsReq
          (Github.get_file ghFallbackEnv "o" "r" "p" "main" []).2
        ∧ ("main" = "main" ∧ ∃ fd,
            ghFallbackEnv.fileContents "o" "r" "p" "main" = Except.ok (404, fd))) := by
  have hc : (Github.get_file ghFallbackEnv "o" "r" "p" "main" []).2
      = [Github.Req.contents "o" "r" "p" "main", Github.Req.repoInfo "o" "r",
         Github.Req.contents "o" "r" "p" "master"] := by
    rw [gh_get_file_trace_main_404 ghFallbackEnv "o" "r" "p" _ rfl]
    simp [ghFallbackReqs, ghFallbackEnv, ghEnvAt]
  have hcount : 2 ≤ List.countP Github.isContentsReq
      (Github.get_file ghFallbackEnv "o" "r" "p" "main" []).2 := by
    rw [hc]; simp [List.countP_cons, Github.isContentsReq]
  refine ⟨?_, hcount, ?_⟩
  · exact ((github_gitlab_fallback_fires_iff.1 ghFallbackEnv "o" "r" "p" "main").1).mpr
      ⟨rfl, _, rfl⟩
  · exact (github_gitlab_fallback_fires_iff.1 ghFallbackEnv "o" "r" "p" "main").2 hcount

/-- C9: the file-fetch operation terminates on every input with recursion
depth at most 1: even when the second attempt also returns 404, no third
content fetch is issued — every run's trace contains at most two content
requests (and at most one metadata lookup).  Termination itself is witnessed
by `get_file` / `gitlab_get_file` being total functions, accepted with the
measure `if branch = "main" then 1 else 0`. -/
theorem github_gitlab_get_file_depth_bound :
    (∀ (env : Github.Env) (o r p b : String),
      List.countP Github.isContentsReq (Github.get_file env o r p b []).2 ≤ 2
      ∧ List.countP Github.isRepoInfoReq (Github.get_file env o r p b []).2 ≤ 1)
    ∧ (∀ (env : Gitlab.Env) (pid p b : String),
      List.countP Gitlab.isFileReq (Gitlab.gitlab_get_file env pid p b []).2 ≤ 2
      ∧ List.countP Gitlab.isProjectInfoReq
          (Gitlab.gitlab_get_file env pid p b []).2 ≤ 1) := by
  constructor
  · intro env o r p b
    have h := gh_fallback_characterization env o r p b
    exact ⟨h.2.2.2, h.2.2.1⟩
  · intro env pid p b
    have h := gl_fallback_characterization env pid p b
    exact ⟨h.2.2.2, h.2.2.1⟩

theorem gh_list_repositories_ok (env : Github.Env) (o : String) (pp : Int)
    (t0 : List Github.Req) : okRun (Github.list_repositories env o pp t0) := by
  unfold okRun Github.list_repositories
  rcases hres : env.userRepos o (min pp 100) with m | ⟨st, body⟩
  · simp [hres, isOkExc]
  · by_cases herr : 400 ≤ st ∧ st < 600 <;>
      simp [hres, raise_for_status, herr, isOkExc]

theorem gh_get_repository_info_ok (env : Github.Env) (o r : String)
    (t0 : List Github.Req) : okRun (Github.get_repository_info env o r t0) := by
  unfold okRun Github.get_repository_info
  rcases hres : env.repoInfo o r with m | ⟨st, body⟩
  · simp [hres, isOkExc]
  · by_cases herr : 400 ≤ st ∧ st < 600 <;>
      simp [hres, raise_for_status, herr, isOkExc]

theorem gh_list_issues_ok (env : Github.Env) (o r s : String) (pp : Int)
    (t0 : List Github.Req) : okRun (Github.list_issues env o r s pp t0) := by
  unfold okRun Github.list_issues
  rcases hres : env.issues o r s (min pp 100) with m | ⟨st, body⟩
  · simp [hres, isOkExc]
  · by_cases herr : 400 ≤ st ∧ st < 600 <;>
      simp [hres, raise_for_status, herr, isOkExc]

theorem gh_create_issue_ok (env : Github.Env) (o r ti bo : String)
    (ls as : Option (List String)) (t0 : List Github.Req) :
    okRun (Github.create_issue env o r ti bo ls as t0) := by
  unfold okRun Github.create_issue
  rcases hres : env.createIssue o r (Github.create_issue_data ti bo ls as)
    with m | ⟨st, body⟩
  · simp [hres, isOkExc]
  · by_cases herr : 400 ≤ st ∧ st < 600 <;>
      simp [hres, raise_for_status, herr, isOkExc]

theorem gh_get_issue_ok (env : Github.Env) (o r : String) (n : Int)
    (t0 : List Github.Req) : okRun (Github.get_issue env o r n t0) := by
  unfold okRun Github.get_issue
  rcases hres : env.issue o r n with m | ⟨st, body⟩
  · simp [hres, isOkExc]
  · by_cases herr : 400 ≤ st ∧ st < 600 <;>
      simp [hres, raise_for_status, herr, isOkExc]

theorem gh_search_repositories_ok (env : Github.Env) (q so ord : String)
    (pp : Int) (t0 : List Github.Req) :
    okRun (Github.search_repositories env q so ord pp t0) := by
  unfold okRun Github.search_repositories
  rcases hres : env.searchRepos q so ord (min pp 100) with m | ⟨st, body⟩
  · simp [hres, isOkExc]
  · by_cases herr : 400 ≤ st ∧ st < 600 <;>
      simp [hres, raise_for_status, herr, isOkExc]

theorem gh_list_repository_contents_ok (env : Github.Env) (o r pa b : String)
    (t0 : List Github.Req) :
    okRun (Github.list_repository_contents env o r pa b t0) := by
  unfold okRun Github.list_repository_contents
  rcases hres : env.dirContents o r pa b with m | ⟨st, body⟩
  · simp [hres, isOkExc]
  · by_cases h404 : st = 404
    · simp [hres, h404, isOkExc]
    · by_cases herr : 400 ≤ st ∧ st < 600
      · simp [hres, h404, raise_for_status, herr, isOkExc]
      · rcases body with f | entries <;>
          simp [hres, h404, raise_for_status, herr, isOkExc]

theorem gh_get_file_ok_not_main (env : Github.Env) (o r p b : String)
    (hb : ¬ b = "main") (t0 : List Github.Req) :
    okRun (Github.get_file env o r p b t0) := by
  unfold okRun Github.get_file
  rcases hres : env.fileContents o r p b with m | ⟨st, fd⟩
  · simp [hres, isOkExc]
  · by_cases h404 : st = 404
    · simp [hres, h404, hb, isOkExc]
    · by_cases herr : 400 ≤ st ∧ st < 600
      · simp [hres, h404, raise_for_status, herr, isOkExc]
      · by_cases hty : fd.typ = some "file"
        · rcases hdec : decode_utf8 fd.content with e | c <;>
            simp [hres, h404, raise_for_status, herr, hty, hdec, isOkExc]
        · simp [hres, h404, raise_for_status, herr, hty, isOkExc]

theorem gh_get_file_ok (env : Github.Env) (o r p b : String)
    (t0 : List Github.Req) : okRun (Github.get_file env o r p b t0) := by
  by_cases hb : b = "main"
  · subst hb
    unfold okRun Github.get_file
    rcases hres : env.fileContents o r p "main" with m | ⟨st, fd⟩
    · simp [hres, isOkExc]
    · by_cases h404 : st = 404
      · rcases hmeta : env.repoMeta o r with m2 | ⟨st2, meta⟩
        · simp [hres, h404, hmeta, isOkExc]
        · by_cases h200 : st2 = 200
          · by_cases hdb : meta.default_branch.getD "master" = "main"
            · simp [hres, h404, hmeta, h200, hdb, isOkExc]
            · have hok := gh_get_file_ok_not_main env o r p
                (meta.default_branch.getD "master") hdb
                (t0 ++ [Github.Req.contents o r p "main", Github.Req.repoInfo o r])
              rcases hrec : Github.get_file env o r p
                  (meta.default_branch.getD "master")
                  (t0 ++ [Github.Req.contents o r p "main", Github.Req.repoInfo o r])
                with ⟨res, tr⟩
              rw [okRun, hrec] at hok
              simp only at hok
              rcases res with e | s
              · simp [isOkExc] at hok
              · simp [hres, h404, hmeta, h200, hdb, hrec, isOkExc]
          · simp [hres, h404, hmeta, h200, isOkExc]
      · by_cases herr : 400 ≤ st ∧ st < 600
        · simp [hres, h404, raise_for_status, herr, isOkExc]
        · by_cases hty : fd.typ = some "file"
          · rcases hdec : decode_utf8 fd.content with e | c <;>
              simp [hres, h404, raise_for_status, herr, hty, hdec, isOkExc]
          · simp [hres, h404, raise_for_status, herr, hty, isOkExc]
  · exact gh_get_file_ok_not_main env o r p b hb t0

theorem gl_list_projects_ok (env : Gitlab.Env) (owner : Option String)
    (pp : Int) (t0 : List Gitlab.Req) :
    okRun (Gitlab.list_projects env owner pp t0) := by
  unfold okRun Gitlab.list_projects
  by_cases how : optStrTruthy owner
  · rcases hu : env.usersSearch (owner.getD "") with m | ⟨su, us⟩
    · simp [how, hu, isOkExc]
    · by_cases hraise : 400 ≤ su ∧ su < 600
      · simp [how, hu, raise_for_status, hraise, isOkExc]
      · rcases us with _ | ⟨u, rest⟩
        · rcases hg : env.groupsSearch (owner.getD "") with m2 | ⟨sg, gs⟩
          · simp [how, hu, hg, raise_for_status, hraise, isOkExc]
          · by_cases hgr : 400 ≤ sg ∧ sg < 600
            · simp [how, hu, hg, raise_for_status, hraise, hgr, isOkExc]
            · rcases gs with _ | ⟨g, grest⟩
              · simp [how, hu, hg, raise_for_status, hraise, hgr, isOkExc]
              · rcases hp : env.groupProjects g.id (min pp 100) with m3 | ⟨sp, ps⟩
                · simp [how, hu, hg, hp, raise_for_status, hraise, hgr, isOkExc]
                · by_cases hpr : 400 ≤ sp ∧ sp < 600 <;>
                    simp [how, hu, hg, hp, raise_for_status, hraise, hgr, hpr,
                      isOkExc]
        · rcases hp : env.userProjects u.id (min pp 100) with m3 | ⟨sp, ps⟩
          · simp [how, hu, hp, raise_for_status, hraise, isOkExc]
          · by_cases hpr : 400 ≤ sp ∧ sp < 600 <;>
              simp [how, hu, hp, raise_for_status, hraise, hpr, isOkExc]
  · rcases hp : env.allProjects (min pp 100) with m3 | ⟨sp, ps⟩
    · simp [how, hp, isOkExc]
    · by_cases hpr : 400 ≤ sp ∧ sp < 600 <;>
        simp [how, hp, raise_for_status, hpr, isOkExc]

theorem gl_get_project_info_ok (env : Gitlab.Env) (pid : String)
    (t0 : List Gitlab.Req) : okRun (Gitlab.get_project_info env pid t0) := by
  unfold okRun Gitlab.get_project_info
  rcases hres : env.projectInfo pid with m | ⟨st, body⟩
  · simp [hres, isOkExc]
  · by_cases herr : 400 ≤ st ∧ st < 600 <;>
      simp [hres, raise_for_status, herr, isOkExc]

theorem gl_gitlab_list_issues_ok (env : Gitlab.Env) (pid s : String) (pp : Int)
    (t0 : List Gitlab.Req) : okRun (Gitlab.gitlab_list_issues env pid s pp t0) := by
  unfold okRun Gitlab.gitlab_list_issues
  rcases hres : env.issues pid s (min pp 100) with m | ⟨st, body⟩
  · simp [hres, isOkExc]
  · by_cases herr : 400 ≤ st ∧ st < 600 <;>
      simp [hres, raise_for_status, herr, isOkExc]

theorem gl_gitlab_create_issue_ok (env : Gitlab.Env) (pid ti de : String)
    (ls : Option (List String)) (ai : Option (List Int))
    (t0 : List Gitlab.Req) :
    okRun (Gitlab.gitlab_create_issue env pid ti de ls ai t0) := by
  unfold okRun Gitlab.gitlab_create_issue
  rcases hres : env.createIssue pid (Gitlab.gitlab_create_issue_data ti de ls ai)
    with m | ⟨st, body⟩
  · simp [hres, isOkExc]
  · by_cases herr : 400 ≤ st ∧ st < 600 <;>
      simp [hres, raise_for_status, herr, isOkExc]

theorem gl_gitlab_get_issue_ok (env : Gitlab.Env) (pid : String) (iid : Int)
    (t0 : List Gitlab.Req) : okRun (Gitlab.gitlab_get_issue env pid iid t0) := by
  unfold okRun Gitlab.gitlab_get_issue
  rcases hres : env.issue pid iid with m | ⟨st, body⟩
  · simp [hres, isOkExc]
  · by_cases herr : 400 ≤ st ∧ st < 600 <;>
      simp [hres, raise_for_status, herr, isOkExc]

theorem gl_gitlab_get_file_ok_not_main (env : Gitlab.Env) (pid p b : String)
    (hb : ¬ b = "main") (t0 : List Gitlab.Req) :
    okRun (Gitlab.gitlab_get_file env pid p b t0) := by
  unfold okRun Gitlab.gitlab_get_file
  rcases hres : env.file pid p b with m | ⟨st, fd⟩
  · simp [hres, isOkExc]
  · by_cases h404 : st = 404
    · simp [hres, h404, hb, isOkExc]
    · by_cases herr : 400 ≤ st ∧ st < 600
      · simp [hres, h404, raise_for_status, herr, isOkExc]
      · rcases hdec : decode_utf8 fd.content with e | c <;>
          simp [hres, h404, raise_for_status, herr, hdec, isOkExc]

theorem gl_gitlab_get_file_ok (env : Gitlab.Env) (pid p b : String)
    (t0 : List Gitlab.Req) : okRun (Gitlab.gitlab_get_file env pid p b t0) := by
  by_cases hb : b = "main"
  · subst hb
    unfold okRun Gitlab.gitlab_get_file
    rcases hres : env.file pid p "main" with m | ⟨st, fd⟩
    · simp [hres, isOkExc]
    · by_cases h404 : st = 404
      · rcases hmeta : env.projectMeta pid with m2 | ⟨st2, meta⟩
        · simp [hres, h404, hmeta, isOkExc]
        · by_cases h200 : st2 = 200
          · by_cases hdb : meta.default_branch.getD "master" = "main"
            · simp [hres, h404, hmeta, h200, hdb, isOkExc]
            · have hok := gl_gitlab_get_file_ok_not_main env pid p
                (meta.default_branch.getD "master") hdb
                (t0 ++ [Gitlab.Req.file pid p "main", Gitlab.Req.projectInfo pid])
              rcases hrec : Gitlab.gitlab_get_file env pid p
                  (meta.default_branch.getD "master")
                  (t0 ++ [Gitlab.Req.file pid p "main", Gitlab.Req.projectInfo pid])
                with ⟨res, tr⟩
              rw [okRun, hrec] at hok
              simp only at hok
              rcases res with e | s
              · simp [isOkExc] at hok
              · simp [hres, h404, hmeta, h200, hdb, hrec, isOkExc]
          · simp [hres, h404, hmeta, h200, isOkExc]
      · by_cases herr : 400 ≤ st ∧ st < 600
        · simp [hres, h404, raise_for_status, herr, isOkExc]
        · rcases hdec : decode_utf8 fd.content with e | c <;>
            simp [hres, h404, raise_for_status, herr, hdec, isOkExc]
  · exact gl_gitlab_get_file_ok_not_main env pid p b hb t0

theorem gl_list_repository_tree_ok (env : Gitlab.Env) (pid pa b : String)
    (t0 : List Gitlab.Req) :
    okRun (Gitlab.list_repository_tree env pid pa b t0) := by
  unfold okRun Gitlab.list_repository_tree
  rcases hres : env.tree pid pa b with m | ⟨st, body⟩
  · simp [hres, isOkExc]
  · by_cases h404 : st = 404
    · simp [hres, h404, isOkExc]
    · by_cases herr : 400 ≤ st ∧ st < 600 <;>
        simp [hres, h404, raise_for_status, herr, isOkExc]

theorem gl_search_projects_ok (env : Gitlab.Env) (q ob so : String) (pp : Int)
    (t0 : List Gitlab.Req) : okRun (Gitlab.search_projects env q ob so pp t0) := by
  unfold okRun Gitlab.search_projects
  rcases hres : env.searchProjects q ob so (min pp 100) with m | ⟨st, body⟩
  · simp [hres, isOkExc]
  · by_cases herr : 400 ≤ st ∧ st < 600 <;>
      simp [hres, raise_for_status, herr, isOkExc]

theorem gl_list_merge_requests_ok (env : Gitlab.Env) (pid s : String)
    (pp : Int) (t0 : List Gitlab.Req) :
    okRun (Gitlab.list_merge_requests env pid s pp t0) := by
  unfold okRun Gitlab.list_merge_requests
  rcases hres : env.mergeRequests pid s (min pp 100) with m | ⟨st, body⟩
  · simp [hres, isOkExc]
  · by_cases herr : 400 ≤ st ∧ st < 600 <;>
      simp [hres, raise_for_status, herr, isOkExc]

/-- C6: For every tool of both adapters and every collaborator behaviour —
covering every failure in the error taxonomy (network failure, non-2xx
upstream status, not-found, type mismatch, decode failure of file content,
owner-resolution failure) — the tool run returns a textual payload (a JSON
error envelope or a bare error string); no failure is propagated to the
caller as an uncaught exception. -/
theorem all_tools_return_text_never_raise :
    (∀ (env : Github.Env) (o : String) (pp : Int) (t0 : List Github.Req),
      okRun (Github.list_repositories env o pp t0))
    ∧ (∀ (env : Github.Env) (o r : String) (t0 : List Github.Req),
      okRun (Github.get_repository_info env o r t0))
    ∧ (∀ (env : Github.Env) (o r s : String) (pp : Int) (t0 : List Github.Req),
      okRun (Github.list_issues env o r s pp t0))
    ∧ (∀ (env : Github.Env) (o r ti bo : String) (ls as : Option (List String))
        (t0 : List Github.Req), okRun (Github.create_issue env o r ti bo ls as t0))
    ∧ (∀ (env : Github.Env) (o r : String) (n : Int) (t0 : List Github.Req),
      okRun (Github.get_issue env o r n t0))
    ∧ (∀ (env : Github.Env) (o r p b : String) (t0 : List Github.Req),
      okRun (Github.get_file env o r p b t0))
    ∧ (∀ (env : Github.Env) (o r pa b : String) (t0 : List Github.Req),
      okRun (Github.list_repository_contents env o r pa b t0))
    ∧ (∀ (env : Github.Env) (q so ord : String) (pp : Int) (t0 : List Github.Req),
      okRun (Github.search_repositories env q so ord pp t0))
    ∧ (∀ (env : Gitlab.Env) (owner : Option String) (pp : Int)
        (t0 : List Gitlab.Req), okRun (Gitlab.list_projects env owner pp t0))
    ∧ (∀ (env : Gitlab.Env) (pid : String) (t0 : List Gitlab.Req),
      okRun (Gitlab.get_project_info env pid t0))
    ∧ (∀ (env : Gitlab.Env) (pid s : String) (pp : Int) (t0 : List Gitlab.Req),
      okRun (Gitlab.gitlab_list_issues env pid s pp t0))
    ∧ (∀ (env : Gitlab.Env) (pid ti de : String) (ls : Option (List String))
        (ai : Option (List Int)) (t0 : List Gitlab.Req),
      okRun (Gitlab.gitlab_create_issue env pid ti de ls ai t0))
    ∧ (∀ (env : Gitlab.Env) (pid : String) (iid : Int) (t0 : List Gitlab.Req),
      okRun (Gitlab.gitlab_get_issue env pid iid t0))
    ∧ (∀ (env : Gitlab.Env) (pid p b : String) (t0 : List Gitlab.Req),
      okRun (Gitlab.gitlab_get_file env pid p b t0))
    ∧ (∀ (env : Gitlab.Env) (pid pa b : String) (t0 : List Gitlab.Req),
      okRun (Gitlab.list_repository_tree env pid pa b t0))
    ∧ (∀ (env : Gitlab.Env) (q ob so : String) (pp : Int) (t0 : List Gitlab.Req),
      okRun (Gitlab.search_projects env q ob so pp t0))
    ∧ (∀ (env : Gitlab.Env) (pid s : String) (pp : Int) (t0 : List Gitlab.Req),
      okRun (Gitlab.list_merge_requests env pid s pp t0))
    ∧ (∀ (env : Gitlab.Env) (pid s : String) (pp : Int) (t0 : List Gitlab.Req),
      okRun (Gitlab.list_issues env pid s pp t0))
    ∧ (∀ (env : Gitlab.Env) (pid ti de : String) (ls : Option (List String))
        (ai : Option (List Int)) (t0 : List Gitlab.Req),
      okRun (Gitlab.create_issue env pid ti de ls ai t0))
    ∧ (∀ (env : Gitlab.Env) (pid : String) (iid : Int) (t0 : List Gitlab.Req),
      okRun (Gitlab.get_issue env pid iid t0))
    ∧ (∀ (env : Gitlab.Env) (pid p b : String) (t0 : List Gitlab.Req),
      okRun (Gitlab.get_file env pid p b t0)) :=
  ⟨gh_list_repositories_ok, gh_get_repository_info_ok, gh_list_issues_ok,
   gh_create_issue_ok, gh_get_issue_ok, gh_get_file_ok,
   gh_list_repository_contents_ok, gh_search_repositories_ok,
   gl_list_projects_ok, gl_get_project_info_ok, gl_gitlab_list_issues_ok,
   gl_gitlab_create_issue_ok, gl_gitlab_get_issue_ok, gl_gitlab_get_file_ok,
   gl_list_repository_tree_ok, gl_search_projects_ok, gl_list_merge_requests_ok,
   gl_gitlab_list_issues_ok, gl_gitlab_create_issue_ok, gl_gitlab_get_issue_ok,
   gl_gitlab_get_file_ok⟩

theorem pySlice_length (s : String) (n : Nat) :
    (pySlice s n).length = min n s.length := by
  show (s.data.take n).length = min n s.length
  exact List.length_take n s.data

/-- C5: each GitLab generic-named alias tool produces output identical to
its forge-prefixed counterpart on every collaborator and argument tuple
(the aliases are pure delegating calls). -/
theorem gitlab_alias_tools_identical :
    (∀ (env : Gitlab.Env) (pid s : String) (pp : Int),
      Gitlab.list_issues env pid s pp = Gitlab.gitlab_list_issues env pid s pp)
    ∧ (∀ (env : Gitlab.Env) (pid ti de : String) (ls : Option (List String))
        (ai : Option (List Int)),
      Gitlab.create_issue env pid ti de ls ai
        = Gitlab.gitlab_create_issue env pid ti de ls ai)
    ∧ (∀ (env : Gitlab.Env) (pid : String) (iid : Int),
      Gitlab.get_issue env pid iid = Gitlab.gitlab_get_issue env pid iid)
    ∧ (∀ (env : Gitlab.Env) (pid p b : String),
      Gitlab.get_file env pid p b = Gitlab.gitlab_get_file env pid p b) :=
  ⟨fun _ _ _ _ => rfl, fun _ _ _ _ _ _ => rfl, fun _ _ _ => rfl,
   fun _ _ _ _ => rfl⟩

/-- C4: the GitHub issue-listing projection loop drops exactly the items
whose payload carries a `pull_request` key (it equals filter-then-project),
while the GitLab loop projects every item with no filtering. -/
theorem github_filters_pull_requests_gitlab_does_not :
    (∀ l : List Github.Issue,
      Github.list_issues_items l
        = (l.filter (fun i => !i.pull_request)).map Github.projIssueSummary)
    ∧ (∀ l : List Gitlab.Issue,
      Gitlab.gitlab_list_issues_items l = l.map Gitlab.projIssueSummary) := by
  constructor
  · intro l
    induction l with
    | nil => rfl
    | cons i rest ih =>
      by_cases hpr : i.pull_request <;>
        simp [Github.list_issues_items, List.filter_cons, hpr, ih]
  · intro l
    induction l with
    | nil => rfl
    | cons i rest ih => simp [Gitlab.gitlab_list_issues_items, ih]

/-- C2: both truncation sites return the input unchanged (marker-free) when
its length is at most the threshold (500 for issue/merge-request bodies,
8000 for file content), and otherwise return exactly the first threshold
characters followed by the marker, so the output length never exceeds
threshold plus marker length. -/
theorem truncation_sites_spec : ∀ s : String,
    truncate_body s = (if s.length ≤ 500 then s else pySlice s 500 ++ "...")
    ∧ (truncate_body s).length ≤ 500 + "...".length
    ∧ truncate_content s
        = (if s.length ≤ 8000 then s else pySlice s 8000 ++ content_marker s.length)
    ∧ (truncate_content s).length ≤ 8000 + (content_marker s.length).length := by
  intro s
  have h3 : "...".length = 3 := rfl
  refine ⟨?_, ?_, ?_, ?_⟩
  · by_cases hle : s.length ≤ 500
    · rw [if_pos hle]
      have hc : ¬(s ≠ "" ∧ 500 < s.length) := fun h => absurd h.2 (not_lt.mpr hle)
      simp [truncate_body, hc]
    · have hgt : 500 < s.length := lt_of_not_le hle
      have hne : s ≠ "" := by
        intro h
        rw [h] at hgt
        exact absurd hgt (by decide)
      rw [if_neg hle]
      simp [truncate_body, hne, hgt]
  · by_cases hle : s.length ≤ 500
    · have hc : ¬(s ≠ "" ∧ 500 < s.length) := fun h => absurd h.2 (not_lt.mpr hle)
      simp only [truncate_body, hc, if_neg, ite_false]
      omega
    · have hgt : 500 < s.length := lt_of_not_le hle
      have hne : s ≠ "" := by
        intro h
        rw [h] at hgt
        exact absurd hgt (by decide)
      simp only [truncate_body, if_pos (And.intro hne hgt)]
      rw [String.length_append, pySlice_length, h3]
      omega
  · by_cases hle : s.length ≤ 8000
    · rw [if_pos hle]
      simp [truncate_content, not_lt.mpr hle]
    · have hgt : 8000 < s.length := lt_of_not_le hle
      rw [if_neg hle]
      simp [truncate_content, hgt]
  · by_cases hle : s.length ≤ 8000
    · simp only [truncate_content, not_lt.mpr hle, ite_false, if_neg]
      omega
    · have hgt : 8000 < s.length := lt_of_not_le hle
      simp only [truncate_content, if_pos hgt]
      rw [String.length_append, pySlice_length]
      omega

theorem keyLe_flag {p q : Bool × List Char} (h : keyLe p q = true)
    (hq : q.1 = false) : p.1 = false := by
  by_cases hp : p.1 = false
  · exact hp
  · have hp' : p.1 = true := by
      cases hv : p.1
      · exact absurd hv hp
      · rfl
    simp [keyLe, hp', hq] at h
    exact absurd h (by decide)

theorem keyLe_name {p q : Bool × List Char} (h : keyLe p q = true)
    (hf : p.1 = q.1) : lexLe p.2 q.2 = true := by
  simp [keyLe, hf] at h
  exact h

theorem gh_itemLe_iff (a b : Github.Item) :
    (Github.itemLe a b = true ∧ Github.itemLe b a = true)
      ↔ (((a.typ = "dir") ↔ (b.typ = "dir")) ∧ pyLower a.name = pyLower b.name) := by
  constructor
  · intro ⟨h1, h2⟩
    have hk : Github.itemKey a = Github.itemKey b := keyLe_antisymm h1 h2
    unfold Github.itemKey at hk
    have hf := congrArg Prod.fst hk
    have hn := congrArg Prod.snd hk
    simp only at hf hn
    refine ⟨not_iff_not.mp (decide_eq_decide.mp hf), hn⟩
  · intro ⟨hf, hn⟩
    have hk : Github.itemKey a = Github.itemKey b := by
      unfold Github.itemKey
      rw [hn, decide_eq_decide.mpr (not_iff_not.mpr hf)]
    constructor
    · rw [Github.itemLe, hk]; exact keyLe_refl _
    · rw [Github.itemLe, hk]; exact keyLe_refl _

theorem gl_titemLe_iff (a b : Gitlab.TItem) :
    (Gitlab.titemLe a b = true ∧ Gitlab.titemLe b a = true)
      ↔ (((a.typ = "tree") ↔ (b.typ = "tree")) ∧ pyLower a.name = pyLower b.name) := by
  constructor
  · intro ⟨h1, h2⟩
    have hk : Gitlab.titemKey a = Gitlab.titemKey b := keyLe_antisymm h1 h2
    unfold Gitlab.titemKey at hk
    have hf := congrArg Prod.fst hk
    have hn := congrArg Prod.snd hk
    simp only at hf hn
    refine ⟨not_iff_not.mp (decide_eq_decide.mp hf), hn⟩
  · intro ⟨hf, hn⟩
    have hk : Gitlab.titemKey a = Gitlab.titemKey b := by
      unfold Gitlab.titemKey
      rw [hn, decide_eq_decide.mpr (not_iff_not.mpr hf)]
    constructor
    · rw [Gitlab.titemLe, hk]; exact keyLe_refl _
    · rw [Gitlab.titemLe, hk]; exact keyLe_refl _

theorem gh_itemLe_total (a b : Github.Item) :
    Github.itemLe a b = true ∨ Github.itemLe b a = true :=
  keyLe_total _ _

theorem gh_itemLe_trans (a b c : Github.Item) (h1 : Github.itemLe a b = true)
    (h2 : Github.itemLe b c = true) : Github.itemLe a c = true :=
  keyLe_trans h1 h2

theorem gl_titemLe_total (a b : Gitlab.TItem) :
    Gitlab.titemLe a b = true ∨ Gitlab.titemLe b a = true :=
  keyLe_total _ _

theorem gl_titemLe_trans (a b c : Gitlab.TItem) (h1 : Gitlab.titemLe a b = true)
    (h2 : Gitlab.titemLe b c = true) : Gitlab.titemLe a c = true :=
  keyLe_trans h1 h2

theorem gh_itemLe_dir {a b : Github.Item} (h : Github.itemLe a b = true)
    (hbd : b.typ = "dir") : a.typ = "dir" := by
  have hq : (Github.itemKey b).1 = false := by
    simp [Github.itemKey, hbd]
  have hp := keyLe_flag h hq
  simp only [Github.itemKey, decide_eq_false_iff_not, not_not] at hp
  exact hp

theorem gl_titemLe_dir {a b : Gitlab.TItem} (h : Gitlab.titemLe a b = true)
    (hbd : b.typ = "tree") : a.typ = "tree" := by
  have hq : (Gitlab.titemKey b).1 = false := by
    simp [Gitlab.titemKey, hbd]
  have hp := keyLe_flag h hq
  simp only [Gitlab.titemKey, decide_eq_false_iff_not, not_not] at hp
  exact hp

theorem gh_itemLe_name {a b : Github.Item} (h : Github.itemLe a b = true)
    (hf : (a.typ = "dir") ↔ (b.typ = "dir")) :
    lexLe (pyLower a.name) (pyLower b.name) = true := by
  refine keyLe_name h ?_
  simp [Github.itemKey]
  exact hf

theorem gl_titemLe_name {a b : Gitlab.TItem} (h : Gitlab.titemLe a b = true)
    (hf : (a.typ = "tree") ↔ (b.typ = "tree")) :
    lexLe (pyLower a.name) (pyLower b.name) = true := by
  refine keyLe_name h ?_
  simp [Gitlab.titemKey]
  exact hf

/-- C3 (amended): the directory-listing comparison is total and transitive;
two entries compare equal if and only if they agree on the directory/file
flag and on the case-insensitive name (distinct entries whose names differ
only by letter case, or whose other fields differ, do compare equal);
sorting is idempotent; in every output every directory-kind entry
(`"dir"`/`"tree"`) precedes every file-kind entry, and entries with the same
kind-flag appear in case-insensitive name ascending order. -/
theorem directory_sort_spec :
    (∀ a b : Github.Item,
      (Github.itemLe a b = true ∧ Github.itemLe b a = true)
        ↔ (((a.typ = "dir") ↔ (b.typ = "dir")) ∧ pyLower a.name = pyLower b.name))
    ∧ (∀ a b : Github.Item, Github.itemLe a b = true ∨ Github.itemLe b a = true)
    ∧ (∀ l : List Github.Item,
        stableSort Github.itemLe (stableSort Github.itemLe l)
          = stableSort Github.itemLe l)
    ∧ (∀ l : List Github.Item,
        List.Pairwise (fun a b => b.typ = "dir" → a.typ = "dir")
          (stableSort Github.itemLe l))
    ∧ (∀ l : List Github.Item,
        List.Pairwise (fun a b => ((a.typ = "dir") ↔ (b.typ = "dir"))
            → lexLe (pyLower a.name) (pyLower b.name) = true)
          (stableSort Github.itemLe l))
    ∧ (∀ a b : Gitlab.TItem,
      (Gitlab.titemLe a b = true ∧ Gitlab.titemLe b a = true)
        ↔ (((a.typ = "tree") ↔ (b.typ = "tree")) ∧ pyLower a.name = pyLower b.name))
    ∧ (∀ a b : Gitlab.TItem, Gitlab.titemLe a b = true ∨ Gitlab.titemLe b a = true)
    ∧ (∀ l : List Gitlab.TItem,
        stableSort Gitlab.titemLe (stableSort Gitlab.titemLe l)
          = stableSort Gitlab.titemLe l)
    ∧ (∀ l : List Gitlab.TItem,
        List.Pairwise (fun a b => b.typ = "tree" → a.typ = "tree")
          (stableSort Gitlab.titemLe l))
    ∧ (∀ l : List Gitlab.TItem,
        List.Pairwise (fun a b => ((a.typ = "tree") ↔ (b.typ = "tree"))
            → lexLe (pyLower a.name) (pyLower b.name) = true)
          (stableSort Gitlab.titemLe l)) := by
  refine ⟨gh_itemLe_iff, gh_itemLe_total, ?_, ?_, ?_,
          gl_titemLe_iff, gl_titemLe_total, ?_, ?_, ?_⟩
  · intro l
    exact stableSort_idem Github.itemLe gh_itemLe_total gh_itemLe_trans l
  · intro l
    exact (pairwise_stableSort Github.itemLe gh_itemLe_total gh_itemLe_trans l).imp
      (fun h hbd => gh_itemLe_dir h hbd)
  · intro l
    exact (pairwise_stableSort Github.itemLe gh_itemLe_total gh_itemLe_trans l).imp
      (fun h hf => gh_itemLe_name h hf)
  · intro l
    exact stableSort_idem Gitlab.titemLe gl_titemLe_total gl_titemLe_trans l
  · intro l
    exact (pairwise_stableSort Gitlab.titemLe gl_titemLe_total gl_titemLe_trans l).imp
      (fun h hbd => gl_titemLe_dir h hbd)
  · intro l
    exact (pairwise_stableSort Gitlab.titemLe gl_titemLe_total gl_titemLe_trans l).imp
      (fun h hf => gl_titemLe_name h hf)

/-- C3 counterexample: the claim as stated ("no two distinct entries compare
equal unless their name and kind are both identical") is false — the
comparator lowercases names, so the distinct directory entries named `"A"`
and `"a"` compare equal in both directions although their names differ, and
the sort consequently leaves either relative order in place. -/
theorem directory_sort_counterexample :
    Github.itemLe ⟨"A", "dir", none, "A"⟩ ⟨"a", "dir", none, "a"⟩ = true
    ∧ Github.itemLe ⟨"a", "dir", none, "a"⟩ ⟨"A", "dir", none, "A"⟩ = true
    ∧ (⟨"A", "dir", none, "A"⟩ : Github.Item) ≠ ⟨"a", "dir", none, "a"⟩
    ∧ Github.Item.name ⟨"A", "dir", none, "A"⟩
        ≠ Github.Item.name ⟨"a", "dir", none, "a"⟩
    ∧ Github.Item.typ ⟨"A", "dir", none, "A"⟩
        = Github.Item.typ ⟨"a", "dir", none, "a"⟩
    ∧ stableSort Github.itemLe [⟨"A", "dir", none, "A"⟩, ⟨"a", "dir", none, "a"⟩]
        = [⟨"A", "dir", none, "A"⟩, ⟨"a", "dir", none, "a"⟩]
    ∧ stableSort Github.itemLe [⟨"a", "dir", none, "a"⟩, ⟨"A", "dir", none, "A"⟩]
        = [⟨"a", "dir", none, "a"⟩, ⟨"A", "dir", none, "A"⟩] := by
  decide

theorem dumps_pdict_head (kvs : List (String × PyVal)) :
    (dumps (PyVal.pdict kvs)).data.head? = some '\x7b' := rfl

theorem c7_gh_list_repositories (env : Github.Env) (o : String) (pp : Int)
    (st : Nat) (body : List Github.Repo)
    (hres : env.userRepos o (min pp 100) = Except.ok (st, body))
    (h1 : 400 ≤ st) (h2 : st < 600) :
    Github.list_repositories env o pp []
      = (Except.ok ("Error fetching repositories: " ++ statusMessage st),
         [Github.Req.userRepos o (min pp 100)]) := by
  unfold Github.list_repositories
  simp [hres, raise_for_status, h1, h2]

theorem c7_gh_list_issues (env : Github.Env) (o r s : String) (pp : Int)
    (st : Nat) (body : List Github.Issue)
    (hres : env.issues o r s (min pp 100) = Except.ok (st, body))
    (h1 : 400 ≤ st) (h2 : st < 600) :
    Github.list_issues env o r s pp []
      = (Except.ok ("Error fetching issues: " ++ statusMessage st),
         [Github.Req.issues o r s (min pp 100)]) := by
  unfold Github.list_issues
  simp [hres, raise_for_status, h1, h2]

theorem c7_gh_search_repositories (env : Github.Env) (q so ord : String)
    (pp : Int) (st : Nat) (body : Github.SearchData)
    (hres : env.searchRepos q so ord (min pp 100) = Except.ok (st, body))
    (h1 : 400 ≤ st) (h2 : st < 600) :
    Github.search_repositories env q so ord pp []
      = (Except.ok ("Error searching repositories: " ++ statusMessage st),
         [Github.Req.searchRepos q so ord (min pp 100)]) := by
  unfold Github.search_repositories
  simp [hres, raise_for_status, h1, h2]

theorem c7_gl_list_projects_all (env : Gitlab.Env) (owner : Option String)
    (pp : Int) (how : optStrTruthy owner = false)
    (st : Nat) (body : List Gitlab.Project)
    (hp : env.allProjects (min pp 100) = Except.ok (st, body))
    (h1 : 400 ≤ st) (h2 : st < 600) :
    Gitlab.list_projects env owner pp []
      = (Except.ok ("Error fetching projects: " ++ statusMessage st),
         [Gitlab.Req.allProjects (min pp 100)]) := by
  unfold Gitlab.list_projects
  simp [how, hp, raise_for_status, h1, h2]

theorem c7_gl_list_projects_user (env : Gitlab.Env) (o : String) (pp : Int)
    (su : Nat) (u : Gitlab.User) (us : List Gitlab.User)
    (hu : env.usersSearch o = Except.ok (su, u :: us)) (hsu : su < 400)
    (ho : ¬ o = "")
    (st : Nat) (body : List Gitlab.Project)
    (hp : env.userProjects u.id (min pp 100) = Except.ok (st, body))
    (h1 : 400 ≤ st) (h2 : st < 600) :
    Gitlab.list_projects env (some o) pp []
      = (Except.ok ("Error fetching projects: " ++ statusMessage st),
         [Gitlab.Req.usersSearch o, Gitlab.Req.userProjects u.id (min pp 100)]) := by
  unfold Gitlab.list_projects
  have how : optStrTruthy (some o) = true := by simp [optStrTruthy, ho]
  simp [how, hu, raise_for_status, Nat.not_le_of_lt hsu, hp, h1, h2]

theorem c7_gl_list_projects_group (env : Gitlab.Env) (o : String) (pp : Int)
    (su : Nat) (hu : env.usersSearch o = Except.ok (su, [])) (hsu : su < 400)
    (sg : Nat) (g : Gitlab.Group) (gs : List Gitlab.Group)
    (hg : env.groupsSearch o = Except.ok (sg, g :: gs)) (hsg : sg < 400)
    (ho : ¬ o = "")
    (st : Nat) (body : List Gitlab.Project)
    (hp : env.groupProjects g.id (min pp 100) = Except.ok (st, body))
    (h1 : 400 ≤ st) (h2 : st < 600) :
    Gitlab.list_projects env (some o) pp []
      = (Except.ok ("Error fetching projects: " ++ statusMessage st),
         [Gitlab.Req.usersSearch o, Gitlab.Req.groupsSearch o,
          Gitlab.Req.groupProjects g.id (min pp 100)]) := by
  unfold Gitlab.list_projects
  have how : optStrTruthy (some o) = true := by simp [optStrTruthy, ho]
  simp [how, hu, hg, raise_for_status, Nat.not_le_of_lt hsu,
    Nat.not_le_of_lt hsg, hp, h1, h2]

theorem c7_gl_gitlab_list_issues (env : Gitlab.Env) (pid s : String) (pp : Int)
    (st : Nat) (body : List Gitlab.Issue)
    (hres : env.issues pid s (min pp 100) = Except.ok (st, body))
    (h1 : 400 ≤ st) (h2 : st < 600) :
    Gitlab.gitlab_list_issues env pid s pp []
      = (Except.ok ("Error fetching issues: " ++ statusMessage st),
         [Gitlab.Req.issues pid s (min pp 100)]) := by
  unfold Gitlab.gitlab_list_issues
  simp [hres, raise_for_status, h1, h2]

theorem c7_gl_search_projects (env : Gitlab.Env) (q ob so : String) (pp : Int)
    (st : Nat) (body : List Gitlab.Project)
    (hres : env.searchProjects q ob so (min pp 100) = Except.ok (st, body))
    (h1 : 400 ≤ st) (h2 : st < 600) :
    Gitlab.search_projects env q ob so pp []
      = (Except.ok ("Error searching projects: " ++ statusMessage st),
         [Gitlab.Req.searchProjects q ob so (min pp 100)]) := by
  unfold Gitlab.search_projects
  simp [hres, raise_for_status, h1, h2]

theorem c7_gl_list_merge_requests (env : Gitlab.Env) (pid s : String)
    (pp : Int) (st : Nat) (body : List Gitlab.MergeRequest)
    (hres : env.mergeRequests pid s (min pp 100) = Except.ok (st, body))
    (h1 : 400 ≤ st) (h2 : st < 600) :
    Gitlab.list_merge_requests env pid s pp []
      = (Except.ok ("Error fetching merge requests: " ++ statusMessage st),
         [Gitlab.Req.mergeRequests pid s (min pp 100)]) := by
  unfold Gitlab.list_merge_requests
  simp [hres, raise_for_status, h1, h2]

/-- C7 (amended): for every listing-pipeline tool, when the HTTP primitive
answers the listing request with a 4xx/5xx status, the tool returns the bare
error string `"Error <doing action>: <detail>"` — a plain string, not an
`{error: ...}` JSON envelope (every serialized JSON object starts with a
brace, while these outputs start with the word `Error`) — the failed
request is the last one issued (no retry), and no items are projected. -/
theorem listing_non2xx_bare_error_string :
    (∀ kvs : List (String × PyVal),
      (dumps (PyVal.pdict kvs)).data.head? = some '\x7b')
    ∧ (∀ (env : Github.Env) (o : String) (pp : Int) (st : Nat)
        (body : List Github.Repo),
        env.userRepos o (min pp 100) = Except.ok (st, body) → 400 ≤ st → st < 600 →
        Github.list_repositories env o pp []
          = (Except.ok ("Error fetching repositories: " ++ statusMessage st),
             [Github.Req.userRepos o (min pp 100)]))
    ∧ (∀ (env : Github.Env) (o r s : String) (pp : Int) (st : Nat)
        (body : List Github.Issue),
        env.issues o r s (min pp 100) = Except.ok (st, body) → 400 ≤ st → st < 600 →
        Github.list_issues env o r s pp []
          = (Except.ok ("Error fetching issues: " ++ statusMessage st),
             [Github.Req.issues o r s (min pp 100)]))
    ∧ (∀ (env : Github.Env) (q so ord : String) (pp : Int) (st : Nat)
        (body : Github.SearchData),
        env.searchRepos q so ord (min pp 100) = Except.ok (st, body)
          → 400 ≤ st → st < 600 →
        Github.search_repositories env q so ord pp []
          = (Except.ok ("Error searching repositories: " ++ statusMessage st),
             [Github.Req.searchRepos q so ord (min pp 100)]))
    ∧ (∀ (env : Gitlab.Env) (owner : Option String) (pp : Int) (st : Nat)
        (body : List Gitlab.Project),
        optStrTruthy owner = false
          → env.allProjects (min pp 100) = Except.ok (st, body)
          → 400 ≤ st → st < 600 →
        Gitlab.list_projects env owner pp []
          = (Except.ok ("Error fetching projects: " ++ statusMessage st),
             [Gitlab.Req.allProjects (min pp 100)]))
    ∧ (∀ (env : Gitlab.Env) (o : String) (pp : Int) (su : Nat)
        (u : Gitlab.User) (us : List Gitlab.User) (st : Nat)
        (body : List Gitlab.Project),
        env.usersSearch o = Except.ok (su, u :: us) → su < 400 → ¬ o = ""
          → env.userProjects u.id (min pp 100) = Except.ok (st, body)
          → 400 ≤ st → st < 600 →
        Gitlab.list_projects env (some o) pp []
          = (Except.ok ("Error fetching projects: " ++ statusMessage st),
             [Gitlab.Req.usersSearch o, Gitlab.Req.userProjects u.id (min pp 100)]))
    ∧ (∀ (env : Gitlab.Env) (o : String) (pp : Int) (su : Nat)
        (sg : Nat) (g : Gitlab.Group) (gs : List Gitlab.Group) (st : Nat)
        (body : List Gitlab.Project),
        env.usersSearch o = Except.ok (su, []) → su < 400
          → env.groupsSearch o = Except.ok (sg, g :: gs) → sg < 400 → ¬ o = ""
          → env.groupProjects g.id (min pp 100) = Except.ok (st, body)
          → 400 ≤ st → st < 600 →
        Gitlab.list_projects env (some o) pp []
          = (Except.ok ("Error fetching projects: " ++ statusMessage st),
             [Gitlab.Req.usersSearch o, Gitlab.Req.groupsSearch o,
              Gitlab.Req.groupProjects g.id (min pp 100)]))
    ∧ (∀ (env : Gitlab.Env) (pid s : String) (pp : Int) (st : Nat)
        (body : List Gitlab.Issue),
        env.issues pid s (min pp 100) = Except.ok (st, body) → 400 ≤ st → st < 600 →
        Gitlab.gitlab_list_issues env pid s pp []
          = (Except.ok ("Error fetching issues: " ++ statusMessage st),
             [Gitlab.Req.issues pid s (min pp 100)]))
    ∧ (∀ (env : Gitlab.Env) (q ob so : String) (pp : Int) (st : Nat)
        (body : List Gitlab.Project),
        env.searchProjects q ob so (min pp 100) = Except.ok (st, body)
          → 400 ≤ st → st < 600 →
        Gitlab.search_projects env q ob so pp []
          = (Except.ok ("Error searching projects: " ++ statusMessage st),
             [Gitlab.Req.searchProjects q ob so (min pp 100)]))
    ∧ (∀ (env : Gitlab.Env) (pid s : String) (pp : Int) (st : Nat)
        (body : List Gitlab.MergeRequest),
        env.mergeRequests pid s (min pp 100) = Except.ok (st, body)
          → 400 ≤ st → st < 600 →
        Gitlab.list_merge_requests env pid s pp []
          = (Except.ok ("Error fetching merge requests: " ++ statusMessage st),
             [Gitlab.Req.mergeRequests pid s (min pp 100)])) := by
  refine ⟨dumps_pdict_head, ?_, ?_, ?_, ?_, ?_, ?_, ?_, ?_, ?_⟩
  · intro env o pp st body hres h1 h2
    exact c7_gh_list_repositories env o pp st body hres h1 h2
  · intro env o r s pp st body hres h1 h2
    exact c7_gh_list_issues env o r s pp st body hres h1 h2
  · intro env q so ord pp st body hres h1 h2
    exact c7_gh_search_repositories env q so ord pp st body hres h1 h2
  · intro env owner pp st body how hp h1 h2
    exact c7_gl_list_projects_all env owner pp how st body hp h1 h2
  · intro env o pp su u us st body hu hsu ho hp h1 h2
    exact c7_gl_list_projects_user env o pp su u us hu hsu ho st body hp h1 h2
  · intro env o pp su sg g gs st body hu hsu hg hsg ho hp h1 h2
    exact c7_gl_list_projects_group env o pp su hu hsu sg g gs hg hsg ho st body hp h1 h2
  · intro env pid s pp st body hres h1 h2
    exact c7_gl_gitlab_list_issues env pid s pp st body hres h1 h2
  · intro env q ob so pp st body hres h1 h2
    exact c7_gl_search_projects env q ob so pp st body hres h1 h2
  · intro env pid s pp st body hres h1 h2
    exact c7_gl_list_merge_requests env pid s pp st body hres h1 h2

/-- C7 witness: every conjunct of the amended statement instantiated at a
concrete collaborator answering 500, with all hypotheses discharged. -/
theorem listing_non2xx_bare_error_string_witness :
    Github.list_repositories (ghEnvAt 500) "o" 30 []
      = (Except.ok ("Error fetching repositories: " ++ statusMessage 500),
         [Github.Req.userRepos "o" (min 30 100)])
    ∧ Github.list_issues (ghEnvAt 500) "o" "r" "open" 30 []
      = (Except.ok ("Error fetching issues: " ++ statusMessage 500),
         [Github.Req.issues "o" "r" "open" (min 30 100)])
    ∧ Github.search_repositories (ghEnvAt 500) "q" "stars" "desc" 30 []
      = (Except.ok ("Error searching repositories: " ++ statusMessage 500),
         [Github.Req.searchRepos "q" "stars" "desc" (min 30 100)])
    ∧ Gitlab.list_projects (glEnvAt 500) none 30 []
      = (Except.ok ("Error fetching projects: " ++ statusMessage 500),
         [Gitlab.Req.allProjects (min 30 100)])
    ∧ Gitlab.list_projects glUserEnv (some "o") 30 []
      = (Except.ok ("Error fetching projects: " ++ statusMessage 500),
         [Gitlab.Req.usersSearch "o",
          Gitlab.Req.userProjects (Gitlab.User.id ⟨7⟩) (min 30 100)])
    ∧ Gitlab.list_projects glGroupEnv (some "o") 30 []
      = (Except.ok ("Error fetching projects: " ++ statusMessage 500),
         [Gitlab.Req.usersSearch "o", Gitlab.Req.groupsSearch "o",
          Gitlab.Req.groupProjects (Gitlab.Group.id ⟨9⟩) (min 30 100)])
    ∧ Gitlab.gitlab_list_issues (glEnvAt 500) "p" "opened" 30 []
      = (Except.ok ("Error fetching issues: " ++ statusMessage 500),
         [Gitlab.Req.issues "p" "opened" (min 30 100)])
    ∧ Gitlab.search_projects (glEnvAt 500) "q" "last_activity_at" "desc" 30 []
      = (Except.ok ("Error searching projects: " ++ statusMessage 500),
         [Gitlab.Req.searchProjects "q" "last_activity_at" "desc" (min 30 100)])
    ∧ Gitlab.list_merge_requests (glEnvAt 500) "p" "opened" 30 []
      = (Except.ok ("Error fetching merge requests: " ++ statusMessage 500),
         [Gitlab.Req.mergeRequests "p" "opened" (min 30 100)]) :=
  ⟨listing_non2xx_bare_error_string.2.1 (ghEnvAt 500) "o" 30 500 []
      rfl (by decide) (by decide),
   listing_non2xx_bare_error_string.2.2.1 (ghEnvAt 500) "o" "r" "open" 30 500 []
      rfl (by decide) (by decide),
   listing_non2xx_bare_error_string.2.2.2.1 (ghEnvAt 500) "q" "stars" "desc" 30
      500 ⟨0, []⟩ rfl (by decide) (by decide),
   listing_non2xx_bare_error_string.2.2.2.2.1 (glEnvAt 500) none 30 500 []
      rfl rfl (by decide) (by decide),
   listing_non2xx_bare_error_string.2.2.2.2.2.1 glUserEnv "o" 30 200 ⟨7⟩ [] 500 []
      rfl (by decide) (by decide) rfl (by decide) (by decide),
   listing_non2xx_bare_error_string.2.2.2.2.2.2.1 glGroupEnv "o" 30 200 200 ⟨9⟩ []
      500 [] rfl (by decide) rfl (by decide) (by decide) rfl (by decide) (by decide),
   listing_non2xx_bare_error_string.2.2.2.2.2.2.2.1 (glEnvAt 500) "p" "opened" 30
      500 [] rfl (by decide) (by decide),
   listing_non2xx_bare_error_string.2.2.2.2.2.2.2.2.1 (glEnvAt 500) "q"
      "last_activity_at" "desc" 30 500 [] rfl (by decide) (by decide),
   listing_non2xx_bare_error_string.2.2.2.2.2.2.2.2.2 (glEnvAt 500) "p" "opened" 30
      500 [] rfl (by decide) (by decide)⟩

/-- C7 counterexample: at a collaborator answering 500, the
repository-listing tool returns the bare string
`"Error fetching repositories: 500 Server Error"` — which begins with the
letter `E`, not with the opening brace every serialized `{error: ...}` JSON
envelope begins with — so the claimed envelope shape is false; moreover a
303 status is not treated as a failure at all (the projection runs). -/
theorem listing_non2xx_bare_error_string_counterexample :
    Github.list_repositories (ghEnvAt 500) "o" 30 []
      = (Except.ok "Error fetching repositories: 500 Server Error",
         [Github.Req.userRepos "o" 30])
    ∧ "Error fetching repositories: 500 Server Error".data.head? = some 'E'
    ∧ ('E' : Char) ≠ '\x7b'
    ∧ Github.list_repositories (ghEnvAt 303) "o" 30 []
      = (Except.ok "[]", [Github.Req.userRepos "o" 30]) :=
  ⟨rfl, rfl, by decide, rfl⟩

theorem gh_list_repositories_trace (env : Github.Env) (o : String) (pp : Int)
    (t0 : List Github.Req) :
    (Github.list_repositories env o pp t0).2
      = t0 ++ [Github.Req.userRepos o (min pp 100)] := by
  unfold Github.list_repositories
  rcases hres : env.userRepos o (min pp 100) with m | ⟨st, body⟩
  · simp [hres]
  · by_cases herr : 400 ≤ st ∧ st < 600 <;> simp [hres, raise_for_status, herr]

theorem gh_list_issues_trace (env : Github.Env) (o r s : String) (pp : Int)
    (t0 : List Github.Req) :
    (Github.list_issues env o r s pp t0).2
      = t0 ++ [Github.Req.issues o r s (min pp 100)] := by
  unfold Github.list_issues
  rcases hres : env.issues o r s (min pp 100) with m | ⟨st, body⟩
  · simp [hres]
  · by_cases herr : 400 ≤ st ∧ st < 600 <;> simp [hres, raise_for_status, herr]

theorem gh_search_repositories_trace (env : Github.Env) (q so ord : String)
    (pp : Int) (t0 : List Github.Req) :
    (Github.search_repositories env q so ord pp t0).2
      = t0 ++ [Github.Req.searchRepos q so ord (min pp 100)] := by
  unfold Github.search_repositories
  rcases hres : env.searchRepos q so ord (min pp 100) with m | ⟨st, body⟩
  · simp [hres]
  · by_cases herr : 400 ≤ st ∧ st < 600 <;> simp [hres, raise_for_status, herr]

theorem gl_gitlab_list_issues_trace (env : Gitlab.Env) (pid s : String)
    (pp : Int) (t0 : List Gitlab.Req) :
    (Gitlab.gitlab_list_issues env pid s pp t0).2
      = t0 ++ [Gitlab.Req.issues pid s (min pp 100)] := by
  unfold Gitlab.gitlab_list_issues
  rcases hres : env.issues pid s (min pp 100) with m | ⟨st, body⟩
  · simp [hres]
  · by_cases herr : 400 ≤ st ∧ st < 600 <;> simp [hres, raise_for_status, herr]

theorem gl_search_projects_trace (env : Gitlab.Env) (q ob so : String)
    (pp : Int) (t0 : List Gitlab.Req) :
    (Gitlab.search_projects env q ob so pp t0).2
      = t0 ++ [Gitlab.Req.searchProjects q ob so (min pp 100)] := by
  unfold Gitlab.search_projects
  rcases hres : env.searchProjects q ob so (min pp 100) with m | ⟨st, body⟩
  · simp [hres]
  · by_cases herr : 400 ≤ st ∧ st < 600 <;> simp [hres, raise_for_status, herr]

theorem gl_list_merge_requests_trace (env : Gitlab.Env) (pid s : String)
    (pp : Int) (t0 : List Gitlab.Req) :
    (Gitlab.list_merge_requests env pid s pp t0).2
      = t0 ++ [Gitlab.Req.mergeRequests pid s (min pp 100)] := by
  unfold Gitlab.list_merge_requests
  rcases hres : env.mergeRequests pid s (min pp 100) with m | ⟨st, body⟩
  · simp [hres]
  · by_cases herr : 400 ≤ st ∧ st < 600 <;> simp [hres, raise_for_status, herr]

theorem gl_list_projects_none_trace (env : Gitlab.Env) (pp : Int)
    (t0 : List Gitlab.Req) :
    (Gitlab.list_projects env none pp t0).2
      = t0 ++ [Gitlab.Req.allProjects (min pp 100)] := by
  unfold Gitlab.list_projects
  rcases hres : env.allProjects (min pp 100) with m | ⟨st, body⟩
  · simp [optStrTruthy, hres]
  · by_cases herr : 400 ≤ st ∧ st < 600 <;>
      simp [optStrTruthy, hres, raise_for_status, herr]

/-- C8 (amended): the page-size value sent to the HTTP primitive by every
listing tool is `min(per_page, 100)` (default 30 when the argument is
omitted): inputs above 100 are lowered to 100, and inputs at most 100 —
including 0 and negative numbers — are forwarded unchanged; there is no
lower clamp to 1. -/
theorem per_page_min_only_upper_clamp :
    (∀ pp : Int, min pp 100 ≤ 100 ∧ min pp 100 ≤ pp
      ∧ (min pp 100 = pp ∨ min pp 100 = 100))
    ∧ (∀ (env : Github.Env) (o : String) (pp : Int) (t0 : List Github.Req),
      (Github.list_repositories env o pp t0).2
        = t0 ++ [Github.Req.userRepos o (min pp 100)])
    ∧ (∀ (env : Github.Env) (o r s : String) (pp : Int) (t0 : List Github.Req),
      (Github.list_issues env o r s pp t0).2
        = t0 ++ [Github.Req.issues o r s (min pp 100)])
    ∧ (∀ (env : Github.Env) (q so ord : String) (pp : Int) (t0 : List Github.Req),
      (Github.search_repositories env q so ord pp t0).2
        = t0 ++ [Github.Req.searchRepos q so ord (min pp 100)])
    ∧ (∀ (env : Gitlab.Env) (pid s : String) (pp : Int) (t0 : List Gitlab.Req),
      (Gitlab.gitlab_list_issues env pid s pp t0).2
        = t0 ++ [Gitlab.Req.issues pid s (min pp 100)])
    ∧ (∀ (env : Gitlab.Env) (q ob so : String) (pp : Int) (t0 : List Gitlab.Req),
      (Gitlab.search_projects env q ob so pp t0).2
        = t0 ++ [Gitlab.Req.searchProjects q ob so (min pp 100)])
    ∧ (∀ (env : Gitlab.Env) (pid s : String) (pp : Int) (t0 : List Gitlab.Req),
      (Gitlab.list_merge_requests env pid s pp t0).2
        = t0 ++ [Gitlab.Req.mergeRequests pid s (min pp 100)])
    ∧ (∀ (env : Gitlab.Env) (pp : Int) (t0 : List Gitlab.Req),
      (Gitlab.list_projects env none pp t0).2
        = t0 ++ [Gitlab.Req.allProjects (min pp 100)])
    ∧ (∀ (env : Github.Env) (o : String),
      Github.list_repositories env o = Github.list_repositories env o 30)
    ∧ (∀ (env : Gitlab.Env) (pid : String),
      Gitlab.gitlab_list_issues env pid
        = Gitlab.gitlab_list_issues env pid "opened" 30) := by
  refine ⟨?_, gh_list_repositories_trace, gh_list_issues_trace,
    gh_search_repositories_trace, gl_gitlab_list_issues_trace,
    gl_search_projects_trace, gl_list_merge_requests_trace,
    gl_list_projects_none_trace, fun _ _ => rfl, fun _ _ => rfl⟩
  intro pp
  refine ⟨min_le_right _ _, min_le_left _ _, ?_⟩
  rcases le_total pp 100 with h | h
  · exact Or.inl (min_eq_left h)
  · exact Or.inr (min_eq_right h)

/-- C8 counterexample: the claim as stated (clamp to `[1,100]`, raising 0 or
negative inputs to 1) is false — with `per_page = 0` the GitHub
repository-listing request carries page size 0, and with `per_page = -5`
the GitLab issue-listing request carries -5; neither equals 1. -/
theorem per_page_clamp_counterexample :
    (Github.list_repositories (ghEnvAt 200) "o" 0 []).2
      = [Github.Req.userRepos "o" 0]
    ∧ (Gitlab.gitlab_list_issues (glEnvAt 200) "p" "opened" (-5) []).2
      = [Gitlab.Req.issues "p" "opened" (-5)]
    ∧ ((0 : Int) ≠ 1) ∧ ((-5 : Int) ≠ 1) :=
  ⟨rfl, rfl, by decide, by decide⟩

theorem gh_create_issue_trace (env : Github.Env) (o r ti bo : String)
    (ls as : Option (List String)) (t0 : List Github.Req) :
    (Github.create_issue env o r ti bo ls as t0).2
      = t0 ++ [Github.Req.createIssue o r (Github.create_issue_data ti bo ls as)] := by
  unfold Github.create_issue
  rcases hres : env.createIssue o r (Github.create_issue_data ti bo ls as)
    with m | ⟨st, body⟩
  · simp [hres]
  · by_cases herr : 400 ≤ st ∧ st < 600 <;> simp [hres, raise_for_status, herr]

theorem gl_create_issue_trace (env : Gitlab.Env) (pid ti de : String)
    (ls : Option (List String)) (ai : Option (List Int))
    (t0 : List Gitlab.Req) :
    (Gitlab.gitlab_create_issue env pid ti de ls ai t0).2
      = t0 ++ [Gitlab.Req.createIssue pid
                 (Gitlab.gitlab_create_issue_data ti de ls ai)] := by
  unfold Gitlab.gitlab_create_issue
  rcases hres : env.createIssue pid (Gitlab.gitlab_create_issue_data ti de ls ai)
    with m | ⟨st, body⟩
  · simp [hres]
  · by_cases herr : 400 ≤ st ∧ st < 600 <;> simp [hres, raise_for_status, herr]

/-- C10: in both issue-creation tools, a `None` or empty `labels` argument
(and for GitHub `assignees`, for GitLab `assignee_ids`) leaves the
corresponding key entirely absent from the POSTed JSON body; a non-empty
`labels` list is sent by GitHub as a JSON array of strings and by GitLab as
a single comma-joined string (and both tools POST exactly the body built
this way). -/
theorem create_issue_optional_keys :
    (∀ (t b : String) (as : Option (List String)),
      "labels" ∉ (Github.create_issue_data t b none as).map Prod.fst)
    ∧ (∀ (t b : String) (as : Option (List String)),
      "labels" ∉ (Github.create_issue_data t b (some []) as).map Prod.fst)
    ∧ (∀ (t b x : String) (xs : List String) (as : Option (List String)),
      List.lookup "labels" (Github.create_issue_data t b (some (x :: xs)) as)
        = some (PyVal.plist ((x :: xs).map PyVal.pstr)))
    ∧ (∀ (t b : String) (ls : Option (List String)),
      "assignees" ∉ (Github.create_issue_data t b ls none).map Prod.fst)
    ∧ (∀ (t b : String) (ls : Option (List String)),
      "assignees" ∉ (Github.create_issue_data t b ls (some [])).map Prod.fst)
    ∧ (∀ (t b x : String) (xs : List String) (ls : Option (List String)),
      List.lookup "assignees" (Github.create_issue_data t b ls (some (x :: xs)))
        = some (PyVal.plist ((x :: xs).map PyVal.pstr)))
    ∧ (∀ (t d : String) (ai : Option (List Int)),
      "labels" ∉ (Gitlab.gitlab_create_issue_data t d none ai).map Prod.fst)
    ∧ (∀ (t d : String) (ai : Option (List Int)),
      "labels" ∉ (Gitlab.gitlab_create_issue_data t d (some []) ai).map Prod.fst)
    ∧ (∀ (t d x : String) (xs : List String) (ai : Option (List Int)),
      List.lookup "labels" (Gitlab.gitlab_create_issue_data t d (some (x :: xs)) ai)
        = some (PyVal.pstr (String.intercalate "," (x :: xs))))
    ∧ (∀ (t d : String) (ls : Option (List String)),
      "assignee_ids" ∉ (Gitlab.gitlab_create_issue_data t d ls none).map Prod.fst)
    ∧ (∀ (t d : String) (ls : Option (List String)),
      "assignee_ids" ∉ (Gitlab.gitlab_create_issue_data t d ls (some [])).map Prod.fst)
    ∧ (∀ (t d : String) (x : Int) (xs : List Int) (ls : Option (List String)),
      List.lookup "assignee_ids"
          (Gitlab.gitlab_create_issue_data t d ls (some (x :: xs)))
        = some (PyVal.plist ((x :: xs).map PyVal.pint)))
    ∧ (∀ (env : Github.Env) (o r ti bo : String) (ls as : Option (List String))
        (t0 : List Github.Req),
      (Github.create_issue env o r ti bo ls as t0).2
        = t0 ++ [Github.Req.createIssue o r
                   (Github.create_issue_data ti bo ls as)])
    ∧ (∀ (env : Gitlab.Env) (pid ti de : String) (ls : Option (List String))
        (ai : Option (List Int)) (t0 : List Gitlab.Req),
      (Gitlab.gitlab_create_issue env pid ti de ls ai t0).2
        = t0 ++ [Gitlab.Req.createIssue pid
                   (Gitlab.gitlab_create_issue_data ti de ls ai)]) := by
  refine ⟨?_, ?_, ?_, ?_, ?_, ?_, ?_, ?_, ?_, ?_, ?_, ?_,
    gh_create_issue_trace, gl_create_issue_trace⟩
  · intro t b as
    rcases as with _ | as2
    · simp [Github.create_issue_data, optListTruthy]
    · rcases as2 with _ | ⟨y, ys⟩ <;>
        simp [Github.create_issue_data, optListTruthy]
  · intro t b as
    rcases as with _ | as2
    · simp [Github.create_issue_data, optListTruthy]
    · rcases as2 with _ | ⟨y, ys⟩ <;>
        simp [Github.create_issue_data, optListTruthy]
  · intro t b x xs as
    rcases as with _ | as2
    · simp [Github.create_issue_data, optListTruthy, List.lookup]
    · rcases as2 with _ | ⟨y, ys⟩ <;>
        simp [Github.create_issue_data, optListTruthy, List.lookup]
  · intro t b ls
    rcases ls with _ | ls2
    · simp [Github.create_issue_data, optListTruthy]
    · rcases ls2 with _ | ⟨y, ys⟩ <;>
        simp [Github.create_issue_data, optListTruthy]
  · intro t b ls
    rcases ls with _ | ls2
    · simp [Github.create_issue_data, optListTruthy]
    · rcases ls2 with _ | ⟨y, ys⟩ <;>
        simp [Github.create_issue_data, optListTruthy]
  · intro t b x xs ls
    rcases ls with _ | ls2
    · simp [Github.create_issue_data, optListTruthy, List.lookup]
    · rcases ls2 with _ | ⟨y, ys⟩ <;>
        simp [Github.create_issue_data, optListTruthy, List.lookup]
  · intro t d ai
    rcases ai with _ | ai2
    · simp [Gitlab.gitlab_create_issue_data, optListTruthy]
    · rcases ai2 with _ | ⟨y, ys⟩ <;>
        simp [Gitlab.gitlab_create_issue_data, optListTruthy]
  · intro t d ai
    rcases ai with _ | ai2
    · simp [Gitlab.gitlab_create_issue_data, optListTruthy]
    · rcases ai2 with _ | ⟨y, ys⟩ <;>
        simp [Gitlab.gitlab_create_issue_data, optListTruthy]
  · intro t d x xs ai
    rcases ai with _ | ai2
    · simp [Gitlab.gitlab_create_issue_data, optListTruthy, List.lookup]
    · rcases ai2 with _ | ⟨y, ys⟩ <;>
        simp [Gitlab.gitlab_create_issue_data, optListTruthy, List.lookup]
  · intro t d ls
    rcases ls with _ | ls2
    · simp [Gitlab.gitlab_create_issue_data, optListTruthy]
    · rcases ls2 with _ | ⟨y, ys⟩ <;>
        simp [Gitlab.gitlab_create_issue_data, optListTruthy]
  · intro t d ls
    rcases ls with _ | ls2
    · simp [Gitlab.gitlab_create_issue_data, optListTruthy]
    · rcases ls2 with _ | ⟨y, ys⟩ <;>
        simp [Gitlab.gitlab_create_issue_data, optListTruthy]
  · intro t d x xs ls
    rcases ls with _ | ls2
    · simp [Gitlab.gitlab_create_issue_data, optListTruthy, List.lookup]
    · rcases ls2 with _ | ⟨y, ys⟩ <;>
        simp [Gitlab.gitlab_create_issue_data, optListTruthy, List.lookup]
